import Mathlib

/-!
chainkit: node bootstrap (vendored go-ipfs `core/builder.go`) and genesis patching.

A shallow embedding of

* `vendor/github.com/ipsn/go-ipfs/core/builder.go`
  (`BuildCfg.getOpt`, `BuildCfg.fillDefaults`, `defaultRepo`, `NewNode`,
  `isTooManyFDError`, `setupNode`), and
* `cosmosutil/genesis.go` (`addValidator`, `addAccount`, `GenesisAdd`).

Go functions that mutate their receiver through a pointer are modelled by explicit
state passing.  Calls into packages that are not part of these files (key generation,
the repo, the pinner, the network services, bech32 decoding, ...) take their outcome
from an environment record `Env`; every such call is also appended to a trace of
`Event`s, so that statements of the form "X is never called" or "X happens before Y"
can be phrased over the trace.
-/

namespace Core

/-! ## Go `error` values -/

/-- A value of Go's `error` interface, as far as `builder.go` can tell values apart.
`nil` is the nil interface; `errno` is a bare `syscall.Errno`; `pathError` is a
(non-nil) `*os.PathError` with its `Op`, `Path` and wrapped `Err`; `other` stands for
every other dynamic type (`errors.New`, not-found sentinels, corruption errors, ...). -/
inductive GoErr where
  | nil
  | errno (code : Nat)
  | pathError (op path : String) (err : GoErr)
  | other (msg : String)
  deriving DecidableEq, Repr, Inhabited

/-- The value of `syscall.EMFILE` ("too many open files") on linux. -/
def EMFILE : Nat := 24

/-- Source: `isTooManyFDError` (builder.go 169-176). -/
def isTooManyFDError (err : GoErr) : Bool :=
  match err with
  | .pathError _ _ perrErr =>
    if perrErr = GoErr.errno EMFILE then
      true
    else
      false
  | _ => false

/-! ## Data model of the builder -/

/-- A raw key-value datastore handle. -/
inductive Datastore where
  /-- The result of `ds.NewMapDatastore()`. -/
  | map
  /-- The result of `ds.NewNullDatastore()`. -/
  | null
  /-- The result of `dsync.MutexWrap(d)`. -/
  | mutexWrap (d : Datastore)
  /-- The datastore of a repo supplied by the caller. -/
  | external (id : Nat)
  deriving DecidableEq, Repr, Inhabited

/-- The fields of the repo config document (`cfg.Config`) that `builder.go` reads or
writes. -/
structure Config where
  Bootstrap : List String := []
  AddressesSwarm : List String := []
  IdentityPeerID : String := ""
  IdentityPrivKey : String := ""
  DatastoreBloomFilterSize : Nat := 0
  DatastoreHashOnRead : Bool := false
  ExperimentalShardingEnabled : Bool := false
  ExperimentalFilestoreEnabled : Bool := false
  ExperimentalUrlstoreEnabled : Bool := false
  Discovery : Nat := 0
  deriving DecidableEq, Repr, Inhabited

/-- A `repo.Repo` value: `D` is what `Datastore()` returns, `C` the config document
held by a `repo.Mock`. -/
structure Repo where
  D : Datastore
  C : Config
  deriving DecidableEq, Repr, Inhabited

/-- A `RoutingOption` function value. -/
inductive RoutingOption where
  | DHTOption
  | custom (id : Nat)
  deriving DecidableEq, Repr, Inhabited

/-- A `HostOption` function value; `noSecurity inner` is the closure built in
`setupNode` that calls `inner` with `libp2p.NoSecurity` appended to the options. -/
inductive HostOption where
  | DefaultHostOption
  | custom (id : Nat)
  | noSecurity (inner : HostOption)
  deriving DecidableEq, Repr, Inhabited

/-- Source: `BuildCfg` (builder.go 40-61).  Nil-able fields are `Option`s. -/
structure BuildCfg where
  Online : Bool := false
  ExtraOpts : Option (List (String × Bool)) := none
  Permanent : Bool := false
  DisableEncryptedConnections : Bool := false
  NilRepo : Bool := false
  Routing : Option RoutingOption := none
  Host : Option HostOption := none
  Repo : Option Core.Repo := none
  deriving DecidableEq, Repr, Inhabited

/-- Indexing a Go `map[string]bool`: the stored value, or `false` for a missing key. -/
def mapIndex (m : List (String × Bool)) (key : String) : Bool :=
  match m.lookup key with
  | some b => b
  | none => false

/-- Source: `BuildCfg.getOpt` (builder.go 63-69). -/
def BuildCfg.getOpt (cfg : BuildCfg) (key : String) : Bool :=
  match cfg.ExtraOpts with
  | none => false
  | some m => mapIndex m key

/-- The fields of `bstore.CacheOpts`. -/
structure CacheOpts where
  HasBloomFilterSize : Nat
  HasBloomFilterHashes : Nat
  HasARCCacheSize : Nat
  deriving DecidableEq, Repr, Inhabited

/-- Calls that leave `builder.go`, in the order in which they are made. -/
inductive Event where
  | newMapDatastore
  | newNullDatastore
  | mutexWrap
  | generateKeyPair
  | idFromPublicKey
  | privBytes
  | newPeerstore
  | loadID
  | repoDatastore
  | repoConfig
  | cachedBlockstore
  | repoFileManager
  | hashOnRead
  | warnNoEncryption
  | setupDiscoveryOption
  | startOnlineServices (routing : Option RoutingOption) (host : Option HostOption)
      (pubsub ipnsps mplex : Bool)
  | offlineExchange
  | loadPinner
  | newPinner
  | startLateOnlineServices
  | loadFilesRoot
  | close
  deriving DecidableEq, Repr, Inhabited

/-- Outcomes of the calls that leave `builder.go`.  A Go result `(v, err)` is a pair
whose second component is the `error`; a call returning only `error` is a `GoErr`. -/
structure Env where
  /-- The Go expression `cfg.DefaultBootstrapAddresses`. -/
  DefaultBootstrapAddresses : List String
  /-- The Go expression `ci.GenerateKeyPairWithReader(ci.RSA, 1024, rand.Reader)`: `((priv, pub), err)`. -/
  generateKeyPair : (Nat × Nat) × GoErr
  /-- The Go expression `peer.IDFromPublicKey(pub)`. -/
  idFromPublicKey : Nat → Nat × GoErr
  /-- The Go expression `priv.Bytes()`. -/
  privBytes : Nat → List Nat × GoErr
  /-- The Go expression `pid.Pretty()`. -/
  pretty : Nat → String
  /-- The Go expression `base64.StdEncoding.EncodeToString`. -/
  base64 : List Nat → String
  /-- The Go expression `n.loadID()`. -/
  loadID : GoErr
  /-- The Go expression `bstore.DefaultCacheOpts()`. -/
  DefaultCacheOpts : CacheOpts
  /-- The outcome of the `k`-th call of `n.Repo.Config()` (`k = 0, 1`). -/
  repoConfig : Nat → Config × GoErr
  /-- The error result of `bstore.CachedBlockstore`. -/
  cachedBlockstore : GoErr
  /-- The Go expression `n.startOnlineServices(...)`. -/
  startOnlineServices : GoErr
  /-- The error result of `pin.LoadPinner`; on success `loadedPins` is the pinned set. -/
  loadPinner : GoErr
  loadedPins : List Nat
  /-- The Go expression `n.startLateOnlineServices(ctx)`. -/
  startLateOnlineServices : GoErr
  /-- The Go expression `n.loadFilesRoot()`. -/
  loadFilesRoot : GoErr

/-- The error created in `fillDefaults` when both `Repo` and `NilRepo` are set. -/
def errRepoAndNilRepo : GoErr :=
  GoErr.other "cannot set a repo and specify nilrepo at the same time"

/-- Source: `defaultRepo` (builder.go 101-127).  Returns `(repo, err, calls made)`. -/
def defaultRepo (env : Env) (dstore : Datastore) : Option Repo × GoErr × List Event :=
  let c : Config := {}
  let kp := env.generateKeyPair
  if kp.2 ≠ GoErr.nil then
    (none, kp.2, [Event.generateKeyPair])
  else
    let pid := env.idFromPublicKey kp.1.2
    if pid.2 ≠ GoErr.nil then
      (none, pid.2, [Event.generateKeyPair, Event.idFromPublicKey])
    else
      let privkeyb := env.privBytes kp.1.1
      if privkeyb.2 ≠ GoErr.nil then
        (none, privkeyb.2, [Event.generateKeyPair, Event.idFromPublicKey, Event.privBytes])
      else
        let c := { c with Bootstrap := env.DefaultBootstrapAddresses }
        let c := { c with AddressesSwarm := ["/ip4/0.0.0.0/tcp/4001"] }
        let c := { c with IdentityPeerID := env.pretty pid.1 }
        let c := { c with IdentityPrivKey := env.base64 privkeyb.1 }
        (some { D := dstore, C := c }, GoErr.nil,
          [Event.generateKeyPair, Event.idFromPublicKey, Event.privBytes])

/-- The observable result of `cfg.fillDefaults()`: the configuration behind the pointer
afterwards, the returned error, and the calls made. -/
structure FillResult where
  cfg : BuildCfg
  err : GoErr
  trace : List Event

/-- The tail of `fillDefaults` (builder.go 90-98): default routing and host. -/
def fillRoutingHost (cfg : BuildCfg) : BuildCfg :=
  let cfg := if cfg.Routing = none then { cfg with Routing := some RoutingOption.DHTOption } else cfg
  let cfg := if cfg.Host = none then { cfg with Host := some HostOption.DefaultHostOption } else cfg
  cfg

/-- Source: `BuildCfg.fillDefaults` (builder.go 71-99). -/
def BuildCfg.fillDefaults (env : Env) (cfg : BuildCfg) : FillResult :=
  if cfg.Repo ≠ none ∧ cfg.NilRepo = true then
    { cfg := cfg, err := errRepoAndNilRepo, trace := [] }
  else if cfg.Repo = none then
    let d := Datastore.map
    let t := [Event.newMapDatastore]
    let d := if cfg.NilRepo then Datastore.null else d
    let t := if cfg.NilRepo then t ++ [Event.newNullDatastore] else t
    let r := defaultRepo env (Datastore.mutexWrap d)
    let t := t ++ [Event.mutexWrap] ++ r.2.2
    if r.2.1 ≠ GoErr.nil then
      { cfg := cfg, err := r.2.1, trace := t }
    else
      { cfg := fillRoutingHost { cfg with Repo := r.1 }, err := GoErr.nil, trace := t }
  else
    { cfg := fillRoutingHost cfg, err := GoErr.nil, trace := [] }

/-! ## The storage stack and the node -/

/-- Source: the `retry.Datastore` literal built in `setupNode` (builder.go 184-189);
`Delay` is in milliseconds. -/
structure RetryDatastore where
  Batching : Datastore
  Delay : Nat
  Retries : Nat
  TempErrFunc : GoErr → Bool

/-- The result of `n.Repo.FileManager()`. -/
structure FileManager where
  repo : Repo
  deriving DecidableEq, Repr

/-- The result of `bstore.NewGCLocker()`. -/
inductive GCLocker where
  | newGCLocker
  deriving DecidableEq, Repr

/-- A blockstore value as a term: each constructor is one of the constructor calls
made in `setupNode`, applied to the store it wraps. -/
inductive Blockstore where
  /-- The Go expression `bstore.NewBlockstore(rds)` -/
  | newBlockstore (rds : RetryDatastore)
  /-- The Go expression `&verifbs.VerifBS{Blockstore: bs}` -/
  | verifBS (bs : Blockstore)
  /-- The Go expression `bstore.CachedBlockstore(ctx, bs, opts)` -/
  | cachedBlockstore (bs : Blockstore) (opts : CacheOpts)
  /-- The Go expression `bstore.NewIdStore(bs)` -/
  | newIdStore (bs : Blockstore)
  /-- The Go expression `cidv0v1.NewBlockstore(bs)` -/
  | cidv0v1 (bs : Blockstore)
  /-- The Go expression `filestore.NewFilestore(bs, fm)` -/
  | newFilestore (bs : Blockstore) (fm : FileManager)
  /-- The Go expression `bstore.NewGCBlockstore(bs, locker)` -/
  | newGCBlockstore (bs : Blockstore) (locker : GCLocker)
  /-- The Go expression `&verifbs.VerifBSGC{GCBlockstore: bs}` -/
  | verifBSGC (bs : Blockstore)

/-- The block-fetch strategy of a node. -/
inductive Exchange where
  /-- The Go expression `offline.Exchange(bs)` -/
  | offline (bs : Blockstore)
  /-- Modelled from the spec: the network-backed exchange that `startOnlineServices`
  (a method of `IpfsNode` that is not part of `builder.go`) installs (spec 4.5). -/
  | network

/-- The Go expression `bserv.New(bs, exch)`. -/
structure BlockService where
  bs : Option Blockstore
  exch : Option Exchange

/-- The Go expression `dag.NewDAGService(blocks)`. -/
structure DAGService where
  blocks : BlockService

/-- A pinner over `(dstore, dserv, internal)`; `pins` is the pinned set, empty for
`pin.NewPinner`. -/
structure Pinner where
  dstore : Datastore
  dserv : Option DAGService
  internal : DAGService
  pins : List Nat

/-- The Go expression `resolver.NewBasicResolver(dag)`. -/
structure Resolver where
  dag : Option DAGService

/-- The node mode. -/
inductive Mode where
  | offlineMode
  | onlineMode
  deriving DecidableEq, Repr

/-- Source: the `retry.Datastore` literal of `setupNode` (builder.go 184-189) over the
raw datastore `d`: 6 retries, 200ms delay, retry only on `isTooManyFDError`. -/
def retryDatastore (d : Datastore) : RetryDatastore :=
  { Batching := d, Delay := 200, Retries := 6, TempErrFunc := isTooManyFDError }

/-- The fields of `IpfsNode` that `builder.go` assigns.  Pointer and interface fields
that start out nil are `Option`s. -/
structure IpfsNode where
  mode : Mode
  Repo : Repo
  BaseBlocks : Option Blockstore := none
  GCLocker : Option GCLocker := none
  Blockstore : Option Core.Blockstore := none
  Filestore : Option Core.Blockstore := none
  Exchange : Option Core.Exchange := none
  Blocks : Option BlockService := none
  DAG : Option DAGService := none
  Pinning : Option Pinner := none
  Resolver : Option Core.Resolver := none
  hashOnRead : Bool := false

/-- The observable result of `setupNode`: the node behind the pointer afterwards, the
returned error, the calls made, and the value assigned to the package-level variable
`uio.UseHAMTSharding`, if any. -/
structure SetupResult where
  n : IpfsNode
  err : GoErr
  trace : List Event
  UseHAMTSharding : Option Bool

/-- Source: `setupNode`, builder.go 259-279: block service, DAG service, pinner,
resolver, late online services and the files root.  `t` is the calls made so far and
`sharding` the value already assigned to `uio.UseHAMTSharding`. -/
def setupServices (env : Env) (n : IpfsNode) (cfg : BuildCfg) (sharding : Option Bool)
    (t : List Event) : SetupResult :=
  let n : IpfsNode := { n with Blocks := some { bs := n.Blockstore, exch := n.Exchange } }
  let n : IpfsNode := { n with DAG := n.Blocks.map DAGService.mk }
  let internalDag : DAGService :=
    { blocks := { bs := n.Blockstore, exch := n.Blockstore.map Exchange.offline } }
  let t : List Event := t ++ [Event.offlineExchange, Event.repoDatastore, Event.loadPinner]
  let loaded : Option Pinner :=
    if env.loadPinner ≠ GoErr.nil then none
    else some { dstore := n.Repo.D, dserv := n.DAG, internal := internalDag,
                pins := env.loadedPins }
  let n : IpfsNode := { n with Pinning := loaded }
  let fresh : Pinner :=
    { dstore := n.Repo.D, dserv := n.DAG, internal := internalDag, pins := [] }
  let t : List Event :=
    if env.loadPinner ≠ GoErr.nil then t ++ [Event.repoDatastore, Event.newPinner] else t
  let n : IpfsNode := if env.loadPinner ≠ GoErr.nil then { n with Pinning := some fresh } else n
  let n : IpfsNode := { n with Resolver := some { dag := n.DAG } }
  let t : List Event := if cfg.Online then t ++ [Event.startLateOnlineServices] else t
  if cfg.Online = true ∧ env.startLateOnlineServices ≠ GoErr.nil then
    { n := n, err := env.startLateOnlineServices, trace := t, UseHAMTSharding := sharding }
  else
    { n := n, err := env.loadFilesRoot, trace := t ++ [Event.loadFilesRoot],
      UseHAMTSharding := sharding }

/-- Source: `setupNode`, builder.go 231-257: second config read, `HashOnRead`, the host
option, and the choice between online services and the offline exchange. -/
def setupExchange (env : Env) (n : IpfsNode) (cfg : BuildCfg) (sharding : Option Bool)
    (t : List Event) : SetupResult :=
  let rcfg := env.repoConfig 1
  let t : List Event := t ++ [Event.repoConfig]
  if rcfg.2 ≠ GoErr.nil then
    { n := n, err := rcfg.2, trace := t, UseHAMTSharding := sharding }
  else
    let rcfg : Config := rcfg.1
    let t : List Event := if rcfg.DatastoreHashOnRead then t ++ [Event.hashOnRead] else t
    let n : IpfsNode := if rcfg.DatastoreHashOnRead then { n with hashOnRead := true } else n
    let hostOption : Option HostOption := cfg.Host
    let t : List Event :=
      if cfg.DisableEncryptedConnections then t ++ [Event.warnNoEncryption] else t
    let hostOption : Option HostOption :=
      if cfg.DisableEncryptedConnections then hostOption.map HostOption.noSecurity
      else hostOption
    if cfg.Online then
      let t : List Event := t ++ [Event.setupDiscoveryOption,
        Event.startOnlineServices cfg.Routing hostOption
          (cfg.getOpt "pubsub") (cfg.getOpt "ipnsps") (cfg.getOpt "mplex")]
      if env.startOnlineServices ≠ GoErr.nil then
        { n := n, err := env.startOnlineServices, trace := t, UseHAMTSharding := sharding }
      else
        setupServices env { n with Exchange := some Exchange.network } cfg sharding t
    else
      setupServices env { n with Exchange := n.Blockstore.map Exchange.offline } cfg sharding
        (t ++ [Event.offlineExchange])

/-- Source: `setupNode`, builder.go 201-229: the sharding switch, the cache options,
the layers of the base blockstore, the GC locker and the node blockstore.  `bs` is the
blockstore built so far and `conf` the repo config read before. -/
def setupBlockstore (env : Env) (n : IpfsNode) (cfg : BuildCfg) (bs : Blockstore)
    (opts : CacheOpts) (conf : Config) (t : List Event) : SetupResult :=
  -- TEMP: setting global sharding switch here
  let sharding : Option Bool := some conf.ExperimentalShardingEnabled
  let opts : CacheOpts := { opts with HasBloomFilterSize := conf.DatastoreBloomFilterSize }
  let opts : CacheOpts :=
    if cfg.Permanent = false then { opts with HasBloomFilterSize := 0 } else opts
  let t : List Event := if cfg.NilRepo = false then t ++ [Event.cachedBlockstore] else t
  if cfg.NilRepo = false ∧ env.cachedBlockstore ≠ GoErr.nil then
    { n := n, err := env.cachedBlockstore, trace := t, UseHAMTSharding := sharding }
  else
    let bs : Blockstore :=
      if cfg.NilRepo = false then Blockstore.cachedBlockstore bs opts else bs
    let bs : Blockstore := Blockstore.newIdStore bs
    let bs : Blockstore := Blockstore.cidv0v1 bs
    let n : IpfsNode := { n with BaseBlocks := some bs }
    let n : IpfsNode := { n with GCLocker := some GCLocker.newGCLocker }
    let n : IpfsNode :=
      { n with Blockstore := some (Blockstore.newGCBlockstore bs GCLocker.newGCLocker) }
    if conf.ExperimentalFilestoreEnabled || conf.ExperimentalUrlstoreEnabled then
      -- hash security
      let fs : Blockstore := Blockstore.newFilestore bs { repo := n.Repo }
      let n : IpfsNode := { n with Filestore := some fs }
      let n : IpfsNode :=
        { n with Blockstore := some (Blockstore.newGCBlockstore fs GCLocker.newGCLocker) }
      let n : IpfsNode := { n with Blockstore := n.Blockstore.map Blockstore.verifBSGC }
      setupExchange env n cfg sharding (t ++ [Event.repoFileManager])
    else
      setupExchange env n cfg sharding t

/-- Source: `setupNode` (builder.go 178-280); lines 201-280 are `setupBlockstore`,
`setupExchange` and `setupServices` above. -/
def setupNode (env : Env) (n : IpfsNode) (cfg : BuildCfg) : SetupResult :=
  -- setup local peer ID (private key is loaded in online setup)
  let t : List Event := [Event.loadID]
  if env.loadID ≠ GoErr.nil then
    { n := n, err := env.loadID, trace := t, UseHAMTSharding := none }
  else
    let rds : RetryDatastore := retryDatastore n.Repo.D
    let t : List Event := t ++ [Event.repoDatastore]
    -- hash security
    let bs : Blockstore := Blockstore.newBlockstore rds
    let bs : Blockstore := Blockstore.verifBS bs
    let opts : CacheOpts := env.DefaultCacheOpts
    let conf := env.repoConfig 0
    let t : List Event := t ++ [Event.repoConfig]
    if conf.2 ≠ GoErr.nil then
      { n := n, err := conf.2, trace := t, UseHAMTSharding := none }
    else
      setupBlockstore env n cfg bs opts conf.1 t

/-- The observable result of `NewNode`: the returned node and error, the `BuildCfg`
behind the pointer afterwards, and the calls made. -/
structure NewNodeResult where
  node : Option IpfsNode
  err : GoErr
  cfg : BuildCfg
  trace : List Event

/-- Source: the node literal of `NewNode` and its mode (builder.go 142-156). -/
def initNode (cfg : BuildCfg) (repo : Repo) : IpfsNode :=
  let n : IpfsNode := { mode := Mode.offlineMode, Repo := repo }
  if cfg.Online then { n with mode := Mode.onlineMode } else n

/-- Source: `NewNode` (builder.go 129-167).  A nil `cfg` pointer is `none`.  The
context, the peerstore and the record validator carry no decision of `builder.go` and
are left out of the node; creating the peerstore is recorded as a call. -/
def NewNode (env : Env) (cfg : Option BuildCfg) : NewNodeResult :=
  let cfg : BuildCfg :=
    match cfg with
    | none => ({} : BuildCfg)
    | some c => c
  let fd := cfg.fillDefaults env
  if fd.err ≠ GoErr.nil then
    { node := none, err := fd.err, cfg := fd.cfg, trace := fd.trace }
  else
  let cfg := fd.cfg
  match cfg.Repo with
  | none =>
    -- not reached: a successful fillDefaults leaves a repo in place
    { node := none, err := GoErr.other "nil repo", cfg := cfg, trace := fd.trace }
  | some repo =>
  let n : IpfsNode := initNode cfg repo
  let t := fd.trace ++ [Event.newPeerstore]
  let s := setupNode env n cfg
  if s.err ≠ GoErr.nil then
    { node := none, err := s.err, cfg := cfg, trace := t ++ s.trace ++ [Event.close] }
  else
    { node := some s.n, err := GoErr.nil, cfg := cfg, trace := t ++ s.trace }

/-! ## The retry wrapper -/

/-- The result of one wrapped datastore operation: the error returned to the caller,
the number of attempts made on the underlying store, and the time slept (ms). -/
structure OpResult where
  err : GoErr
  attempts : Nat
  waited : Nat
  deriving DecidableEq, Repr

/-- The error a wrapped operation returns once the retry budget is used up. -/
def errIOExhausted : GoErr := GoErr.other "IOExhausted"

/-- Modelled from the spec: the retry loop of `retry.Datastore` (package `retrystore`,
whose code is not among the sources).  Spec 4.2: operations are wrapped "with up to a
fixed retry budget (policy: 6 attempts, 200ms fixed delay between attempts) triggered
only by a classified transient error"; "all other errors propagate immediately on
first occurrence"; spec 7: a transient error is "retried up to policy budget, then
surfaces as `IOExhausted`".  `op k` is the outcome of the `k`-th attempt (from 0) on
the underlying store, `budget` the attempts left, `k` the attempts already made. -/
def RetryDatastore.retryLoop (d : RetryDatastore) (op : Nat → GoErr) : Nat → Nat → OpResult
  | 0, k => { err := errIOExhausted, attempts := k, waited := (k - 1) * d.Delay }
  | budget + 1, k =>
    if op k = GoErr.nil ∨ d.TempErrFunc (op k) = false then
      { err := op k, attempts := k + 1, waited := k * d.Delay }
    else
      RetryDatastore.retryLoop d op budget (k + 1)

/-- Modelled from the spec: a wrapped operation of `retry.Datastore` (not among the
sources): the retry loop with the budget `Retries` of the policy. -/
def RetryDatastore.runOp (d : RetryDatastore) (op : Nat → GoErr) : OpResult :=
  d.retryLoop op d.Retries 0

/-! ## Reading the layers of a blockstore term -/

/-- The kinds of layer of the storage stack. -/
inductive Layer where
  | retryDatastore
  | verification
  | cache
  | idShortcut
  | codecNormalization
  | fileOverlay
  | gcGuard
  | verificationGC
  deriving DecidableEq, Repr

/-- The layers of a blockstore, innermost first. -/
def Blockstore.layers : Blockstore → List Layer
  | .newBlockstore _ => [Layer.retryDatastore]
  | .verifBS bs => bs.layers ++ [Layer.verification]
  | .cachedBlockstore bs _ => bs.layers ++ [Layer.cache]
  | .newIdStore bs => bs.layers ++ [Layer.idShortcut]
  | .cidv0v1 bs => bs.layers ++ [Layer.codecNormalization]
  | .newFilestore bs _ => bs.layers ++ [Layer.fileOverlay]
  | .newGCBlockstore bs _ => bs.layers ++ [Layer.gcGuard]
  | .verifBSGC bs => bs.layers ++ [Layer.verificationGC]

/-- The outermost layer of a blockstore. -/
def Blockstore.outermost : Blockstore → Layer
  | .newBlockstore _ => Layer.retryDatastore
  | .verifBS _ => Layer.verification
  | .cachedBlockstore _ _ => Layer.cache
  | .newIdStore _ => Layer.idShortcut
  | .cidv0v1 _ => Layer.codecNormalization
  | .newFilestore _ _ => Layer.fileOverlay
  | .newGCBlockstore _ _ => Layer.gcGuard
  | .verifBSGC _ => Layer.verificationGC

/-- The bloom filter size of the cache layer of a blockstore, if it has a cache layer. -/
def Blockstore.bloomFilterSize : Blockstore → Option Nat
  | .newBlockstore _ => none
  | .verifBS bs => bs.bloomFilterSize
  | .cachedBlockstore _ opts => some opts.HasBloomFilterSize
  | .newIdStore bs => bs.bloomFilterSize
  | .cidv0v1 bs => bs.bloomFilterSize
  | .newFilestore bs _ => bs.bloomFilterSize
  | .newGCBlockstore bs _ => bs.bloomFilterSize
  | .verifBSGC bs => bs.bloomFilterSize

/-- The event is a call of `startOnlineServices`. -/
def Event.isStartOnlineServices : Event → Bool
  | .startOnlineServices _ _ _ _ _ => true
  | _ => false

/-- The steps of `setupNode` before the blockstore is assembled all succeed: `loadID`,
the first `Repo.Config()` and, unless `NilRepo`, `CachedBlockstore`. -/
def reachesBlockstore (env : Env) (cfg : BuildCfg) : Prop :=
  env.loadID = GoErr.nil ∧ (env.repoConfig 0).2 = GoErr.nil ∧
    (cfg.NilRepo = true ∨ env.cachedBlockstore = GoErr.nil)

/-- The steps of `setupNode` before the exchange is selected all succeed: those before
the blockstore, and the second `Repo.Config()`. -/
def reachesExchange (env : Env) (cfg : BuildCfg) : Prop :=
  reachesBlockstore env cfg ∧ (env.repoConfig 1).2 = GoErr.nil

/-- The error `LoadPinner` passes on when the pinner keys are not in the datastore
(`ds.ErrNotFound`). -/
def ErrNotFound : GoErr := GoErr.other "datastore: key not found"

/-! ## Sample environments -/

/-- An environment in which every call succeeds; the repo config is the zero document
with a bloom filter size of 1024. -/
def envOk : Env where
  DefaultBootstrapAddresses := ["/dnsaddr/bootstrap.libp2p.io"]
  generateKeyPair := ((1, 2), GoErr.nil)
  idFromPublicKey := fun _ => (3, GoErr.nil)
  privBytes := fun _ => ([4, 5], GoErr.nil)
  pretty := fun _ => "QmPeer"
  base64 := fun _ => "BAU="
  loadID := GoErr.nil
  DefaultCacheOpts := { HasBloomFilterSize := 512 <<< 10, HasBloomFilterHashes := 7,
                        HasARCCacheSize := 64 <<< 10 }
  repoConfig := fun _ => ({ DatastoreBloomFilterSize := 1024 }, GoErr.nil)
  cachedBlockstore := GoErr.nil
  startOnlineServices := GoErr.nil
  loadPinner := GoErr.nil
  loadedPins := []
  startLateOnlineServices := GoErr.nil
  loadFilesRoot := GoErr.nil

/-- An underlying store that fails with the transient error on its first `N` attempts
and succeeds afterwards. -/
def failsThenSucceeds (N : Nat) : Nat → GoErr :=
  fun k => if k < N then GoErr.pathError "open" "/blocks/x" (GoErr.errno EMFILE) else GoErr.nil

/-- As `envOk`, but key generation fails. -/
def envKeygenFails : Env :=
  { envOk with generateKeyPair := ((0, 0), GoErr.other "rand: read failed") }

/-- As `envOk`, but loading the files root fails. -/
def envFilesRootFails : Env :=
  { envOk with loadFilesRoot := GoErr.other "files root: corrupt" }

/-- The cache options `setupNode` passes to `CachedBlockstore`: the default options with
the bloom filter size of the repo config when the node is permanent, and 0 otherwise. -/
def cacheOptsOf (env : Env) (cfg : BuildCfg) : CacheOpts :=
  { env.DefaultCacheOpts with
    HasBloomFilterSize :=
      if cfg.Permanent then (env.repoConfig 0).1.DatastoreBloomFilterSize else 0 }

/-- The chain of the base blockstore as the specification words it, innermost first:
retry-wrapped raw datastore, integrity verification, read-through cache (unless
`nilRepo`), identity-block short-circuit, codec normalization. -/
def baseChain (d : Datastore) (nilRepo : Bool) (opts : CacheOpts) : Blockstore :=
  let verified := Blockstore.verifBS (Blockstore.newBlockstore (retryDatastore d))
  let cached := if nilRepo then verified else Blockstore.cachedBlockstore verified opts
  Blockstore.cidv0v1 (Blockstore.newIdStore cached)

/-- The node blockstore over a base blockstore, as the code builds it: the GC guard
directly over the base, or, with the file overlay, the GC-aware integrity wrapper over
the GC guard over the file overlay over the base. -/
def nodeChain (base : Blockstore) (fileOverlay : Bool) (fm : FileManager) : Blockstore :=
  if fileOverlay then
    Blockstore.verifBSGC
      (Blockstore.newGCBlockstore (Blockstore.newFilestore base fm) GCLocker.newGCLocker)
  else
    Blockstore.newGCBlockstore base GCLocker.newGCLocker

/-- A repo supplied by the caller. -/
def repoExt : Repo := { D := Datastore.external 0, C := {} }

/-- A configuration with a repo supplied by the caller and every other field zero. -/
def cfgExt : BuildCfg := { Repo := some repoExt }

/-- As `envOk`, but the repo config enables the filestore. -/
def envFilestore : Env :=
  { envOk with repoConfig := fun _ => ({ ExperimentalFilestoreEnabled := true }, GoErr.nil) }

/-- The steps of `setupNode` before the pinner is loaded all succeed: those before the
exchange is selected and, when online, `startOnlineServices`. -/
def reachesPinner (env : Env) (cfg : BuildCfg) : Prop :=
  reachesExchange env cfg ∧ (cfg.Online = true → env.startOnlineServices = GoErr.nil)

/-- As `envOk`, but loading the pinner fails with an error other than not-found. -/
def envPinnerCorrupt : Env :=
  { envOk with loadPinner := GoErr.other "pin: cannot decode pin set" }

/-- The host option `setupNode` hands to `startOnlineServices`: `cfg.Host`, wrapped with
`libp2p.NoSecurity` when `DisableEncryptedConnections` is set. -/
def hostOptionOf (cfg : BuildCfg) : Option HostOption :=
  if cfg.DisableEncryptedConnections then cfg.Host.map HostOption.noSecurity else cfg.Host

/-- The call of `startOnlineServices` that `setupNode` makes for `cfg`. -/
def startOnlineCall (cfg : BuildCfg) : Event :=
  Event.startOnlineServices cfg.Routing (hostOptionOf cfg)
    (cfg.getOpt "pubsub") (cfg.getOpt "ipnsps") (cfg.getOpt "mplex")

/-- A configuration of an online node over a caller-supplied repo with the `pubsub`
option set and the `mplex` option explicitly off. -/
def cfgOnline : BuildCfg :=
  { Online := true, ExtraOpts := some [("pubsub", true), ("mplex", false)],
    Routing := some RoutingOption.DHTOption, Host := some HostOption.DefaultHostOption,
    Repo := some repoExt }

/-- The first non-nil error of a list of step outcomes, nil when every step succeeded. -/
def firstError : List GoErr → GoErr
  | [] => GoErr.nil
  | e :: rest => if e ≠ GoErr.nil then e else firstError rest

/-- The outcomes of the steps of `setupNode` whose error `setupNode` returns, in the
order of the source: `loadID` (180), the first `Repo.Config()` (196),
`CachedBlockstore` unless `NilRepo` (210), the second `Repo.Config()` (231),
`startOnlineServices` when online (252), `startLateOnlineServices` when online (274)
and `loadFilesRoot` (279).  `pin.LoadPinner` (263) is not among them. -/
def stepErrors (env : Env) (cfg : BuildCfg) : List GoErr :=
  [env.loadID, (env.repoConfig 0).2] ++
    (if cfg.NilRepo then [] else [env.cachedBlockstore]) ++
    [(env.repoConfig 1).2] ++
    (if cfg.Online then [env.startOnlineServices] else []) ++
    (if cfg.Online then [env.startLateOnlineServices] else []) ++
    [env.loadFilesRoot]

/-- Every layer and service of the node that `setupNode` assigns is in place. -/
def IpfsNode.complete (n : IpfsNode) : Bool :=
  n.BaseBlocks.isSome && n.GCLocker.isSome && n.Blockstore.isSome && n.Exchange.isSome &&
    n.Blocks.isSome && n.DAG.isSome && n.Pinning.isSome && n.Resolver.isSome

/-- As `envOk`, but starting the late online services fails. -/
def envLateFails : Env :=
  { envOk with startLateOnlineServices := GoErr.other "late services: listen failed" }

end Core

namespace Cosmosutil

/-! ## Genesis patching (`cosmosutil/genesis.go`) -/

/-- A Go `error` value of `genesis.go`: nil, an error made by `errors.New`, an error
wrapped with a message by `errors.Wrap`, or an error returned by a library call. -/
inductive Error where
  | nil
  | new (msg : String)
  | wrap (cause : Error) (msg : String)
  | lib (msg : String)
  deriving DecidableEq, Repr, Inhabited

/-- An `sdk.Coin`. -/
structure Coin where
  Denom : String
  Amount : Int
  deriving DecidableEq, Repr

/-- Source: `account` (genesis.go 16-19); the address is kept as its bytes. -/
structure account where
  Address : List Nat
  Coins : List Coin
  deriving DecidableEq, Repr

/-- The fields of `tmtypes.GenesisValidator`; the key and address are kept as bytes. -/
structure GenesisValidator where
  Address : List Nat
  PubKey : List Nat
  Power : Int
  Name : String
  deriving DecidableEq, Repr

/-- A dynamic value held in a Go `interface{}`.  The first six constructors are the
dynamic types `json.Unmarshal` stores into an `interface{}` (nil, `bool`, `float64`,
`string`, `[]interface{}`, `map[string]interface{}`); the last two are the dynamic
types `[]account` and `[]tmtypes.GenesisValidator` that `GenesisAdd` itself stores. -/
inductive Value where
  | nil
  | bool (b : Bool)
  | float64 (literal : String)
  | string (s : String)
  | slice (xs : List Value)
  | map (fields : List (String × Value))
  | accounts (l : List account)
  | validators (l : List GenesisValidator)

mutual
/-- The value is one that `json.Unmarshal` produces: no `[]account` and no
`[]tmtypes.GenesisValidator` occurs in it. -/
def Value.isDecoded : Value → Bool
  | .nil => true
  | .bool _ => true
  | .float64 _ => true
  | .string _ => true
  | .slice xs => allDecoded xs
  | .map fields => allFieldsDecoded fields
  | .accounts _ => false
  | .validators _ => false
/-- Every element is a value that `json.Unmarshal` produces. -/
def allDecoded : List Value → Bool
  | [] => true
  | x :: xs => x.isDecoded && allDecoded xs
/-- Every field holds a value that `json.Unmarshal` produces. -/
def allFieldsDecoded : List (String × Value) → Bool
  | [] => true
  | (_, v) :: fields => v.isDecoded && allFieldsDecoded fields
end

/-- Indexing a Go `map[string]interface{}`: the stored value, or nil for a missing key. -/
def mapGet (m : List (String × Value)) (key : String) : Value :=
  match m.lookup key with
  | some v => v
  | none => Value.nil

/-- Assigning `m[key] = v` in a Go map. -/
def mapSet (m : List (String × Value)) (key : String) (v : Value) : List (String × Value) :=
  match m with
  | [] => [(key, v)]
  | (k, w) :: rest => if k = key then (k, v) :: rest else (k, w) :: mapSet rest key v

/-- The Go expression `strings.SplitN(s, sep, 2)` for a one-character separator: `s` cut at the first
`sep`, or `s` alone when it has none. -/
def splitN2 (s : String) (sep : Char) : List String :=
  match s.toList.span (fun c => c != sep) with
  | (a, []) => [String.mk a]
  | (a, _ :: b) => [String.mk a, String.mk b]

/-- Outcomes of the calls that leave `genesis.go`. -/
structure Env where
  /-- The Go expression `ioutil.ReadFile(path)` -/
  readFile : String → String × Error
  /-- The Go expression `json.Unmarshal(data, &genesis)` into an empty `map[string]interface{}`: the map
  afterwards and the error. -/
  unmarshal : String → List (String × Value) × Error
  /-- The Go expression `sdk.GetValPubKeyBech32(pubKey)` -/
  GetValPubKeyBech32 : String → List Nat × Error
  /-- The Go expression `pKey.Address()` -/
  pubKeyAddress : List Nat → List Nat
  /-- The Go expression `sdk.AccAddressFromBech32(address)` -/
  AccAddressFromBech32 : String → List Nat × Error
  /-- The Go expression `sdk.ParseCoins(coins)` -/
  ParseCoins : String → List Coin × Error
  /-- The Go expression `coinList.Sort()` -/
  sortCoins : List Coin → List Coin
  /-- The Go expression `json.Marshal(genesis)` -/
  marshal : List (String × Value) → String × Error
  /-- The Go expression `ioutil.WriteFile(path, data, 0644)` -/
  writeFile : String → String → Error

/-- Source: `addValidator` (genesis.go 40-54).  A nil slice is the empty list. -/
def addValidator (env : Env) (validators : List GenesisValidator) (pubKey : String) :
    List GenesisValidator × Error :=
  let pKey := env.GetValPubKeyBech32 pubKey
  if pKey.2 ≠ Error.nil then
    ([], pKey.2)
  else
    -- NOTE: the validator voting power is hardcoded to 10
    let validator : GenesisValidator :=
      { Address := env.pubKeyAddress pKey.1, PubKey := pKey.1, Power := 10, Name := "" }
    (validators ++ [validator], Error.nil)

/-- Source: `addAccount` (genesis.go 56-73).  A nil slice is the empty list. -/
def addAccount (env : Env) (accounts : List account) (address coins : String) :
    List account × Error :=
  let addr := env.AccAddressFromBech32 address
  if addr.2 ≠ Error.nil then
    ([], addr.2)
  else
    let coinList := env.ParseCoins coins
    if coinList.2 ≠ Error.nil then
      ([], coinList.2)
    else
      let coinList := env.sortCoins coinList.1
      let acc : account := { Address := addr.1, Coins := coinList }
      (accounts ++ [acc], Error.nil)

/-- What a call of `GenesisAdd` does: it panics, or it returns `err`, having written
`written` (path and the genesis map that was marshalled) if it got that far. -/
inductive Outcome where
  | panic (msg : String)
  | returned (err : Error) (written : Option (String × List (String × Value)))

/-- The error `formatError` of `GenesisAdd` (genesis.go 77-78). -/
def formatError : Error :=
  Error.new ("formatting error: --genesis-add validator|account:address(,coins,...) - " ++
    "example: --genesis-add account:1234abcde,10mycoin --genesis-add validator:abcde1234")

/-- Source: the loop of `GenesisAdd` (genesis.go 95-119): the accounts and validators
after all adds, or the error returned from inside the loop. -/
def addLoop (env : Env) :
    List String → List account → List GenesisValidator →
      Except Error (List account × List GenesisValidator)
  | [], accounts, validators => Except.ok (accounts, validators)
  | add :: adds, accounts, validators =>
    match splitN2 add ':' with
    | [key, rest] =>
      if key = "validator" then
        let r := addValidator env validators rest
        if r.2 ≠ Error.nil then
          Except.error (Error.wrap r.2 "cannot add validator")
        else
          addLoop env adds accounts r.1
      else if key = "account" then
        let acc := splitN2 rest ','
        let coins := if acc.length > 1 then (acc.tail.head?).getD "" else ""
        let r := addAccount env accounts (acc.head?.getD "") coins
        if r.2 ≠ Error.nil then
          Except.error (Error.wrap r.2 "cannot add account")
        else
          addLoop env adds r.1 validators
      else
        Except.error formatError
    | _ => Except.error formatError

/-- Source: `GenesisAdd` (genesis.go 75-133).  A type assertion without the comma-ok
form panics when the dynamic type differs. -/
def GenesisAdd (env : Env) (path : String) (adds : List String) : Outcome :=
  let data := env.readFile path
  if data.2 ≠ Error.nil then
    Outcome.returned (Error.wrap data.2 "cannot read genesis file") none
  else
    let um := env.unmarshal data.1
    if um.2 ≠ Error.nil then
      Outcome.returned um.2 none
    else
      let genesis := um.1
      match mapGet genesis "app_state" with
      | Value.map appState =>
        match mapGet appState "accounts" with
        | Value.accounts accounts =>
          match mapGet genesis "validators" with
          | Value.validators validators =>
            match addLoop env adds accounts validators with
            | Except.error err => Outcome.returned err none
            | Except.ok (accounts, validators) =>
              let genesis := mapSet genesis "validators" (Value.validators validators)
              let appState := mapSet appState "accounts" (Value.accounts accounts)
              let genesis := mapSet genesis "app_state" (Value.map appState)
              let genesisJSON := env.marshal genesis
              if genesisJSON.2 ≠ Error.nil then
                Outcome.returned (Error.wrap genesisJSON.2 "cannot generate new genesis file") none
              else
                let w := env.writeFile "/tmp/genesis.json" genesisJSON.1
                if w ≠ Error.nil then
                  Outcome.returned (Error.wrap w "cannot write new genesis file") none
                else
                  Outcome.returned Error.nil (some ("/tmp/genesis.json", genesis))
          | _ => Outcome.panic "interface conversion: interface \x7b\x7d is not []types.GenesisValidator"
        | _ => Outcome.panic "interface conversion: interface \x7b\x7d is not []cosmosutil.account"
      | _ => Outcome.panic "interface conversion: interface \x7b\x7d is not map[string]interface \x7b\x7d"

/-- A genesis document with an empty `app_state.accounts` array and an empty
`validators` array, as `json.Unmarshal` decodes it. -/
def emptyGenesis : List (String × Value) :=
  [("app_state", Value.map [("accounts", Value.slice [])]), ("validators", Value.slice [])]

/-- An environment in which `genesis.json` is readable and holds `emptyGenesis`, and
every library call succeeds. -/
def envGenesis : Env where
  readFile := fun _ => ("genesis", Error.nil)
  unmarshal := fun _ => (emptyGenesis, Error.nil)
  GetValPubKeyBech32 := fun _ => ([1], Error.nil)
  pubKeyAddress := fun _ => [2]
  AccAddressFromBech32 := fun _ => ([3], Error.nil)
  ParseCoins := fun _ => ([], Error.nil)
  sortCoins := fun l => l
  marshal := fun _ => ("json", Error.nil)
  writeFile := fun _ _ => Error.nil

end Cosmosutil

/-! # Theorems -/

namespace Core

/-! ## The retry trigger and the retry budget -/

theorem isTooManyFDError_ne_nil {err : GoErr} (h : isTooManyFDError err = true) :
    err ≠ GoErr.nil := by
  intro h0
  subst h0
  simp [isTooManyFDError] at h

theorem retryLoop_step (d : RetryDatastore) (op : Nat → GoErr) (budget k : Nat)
    (h1 : d.TempErrFunc (op k) = true) (h2 : op k ≠ GoErr.nil) :
    d.retryLoop op (budget + 1) k = d.retryLoop op budget (k + 1) := by
  simp [RetryDatastore.retryLoop, h1, h2]

theorem retryLoop_stop (d : RetryDatastore) (op : Nat → GoErr) (budget k : Nat)
    (h : op k = GoErr.nil ∨ d.TempErrFunc (op k) = false) :
    d.retryLoop op (budget + 1) k = { err := op k, attempts := k + 1, waited := k * d.Delay } := by
  simp [RetryDatastore.retryLoop, h]

/-- While the first `m` attempts from `k` on all fail with an error the policy retries,
the loop uses up `m` of its budget and goes on from attempt `k + m`. -/
theorem retryLoop_skip (d : RetryDatastore) (op : Nat → GoErr) :
    ∀ (m budget k : Nat),
      (∀ j, j < m → d.TempErrFunc (op (k + j)) = true ∧ op (k + j) ≠ GoErr.nil) →
      d.retryLoop op (m + budget) k = d.retryLoop op budget (k + m) := by
  intro m
  induction m with
  | zero => intro budget k _; simp
  | succ m ih =>
    intro budget k h
    have h0 := h 0 (Nat.succ_pos m)
    simp only [Nat.add_zero] at h0
    have hstep : m + 1 + budget = (m + budget) + 1 := by omega
    rw [hstep, retryLoop_step d op (m + budget) k h0.1 h0.2, ih budget (k + 1)]
    · congr 1
      omega
    · intro j hj
      have := h (j + 1) (Nat.succ_lt_succ hj)
      have e : k + 1 + j = k + (j + 1) := by omega
      rw [e]
      exact this

/-- C6: `isTooManyFDError` is true exactly for a `*os.PathError` whose wrapped `Err` is
`syscall.EMFILE`; it is false for nil, for not-found and any other plain error, for a
`PathError` with another errno and for a bare `EMFILE`.  It is the retry trigger of
the policy, and an error it rejects is returned by the wrapped operation after the
first attempt, without any wait. -/
theorem isTooManyFDError_iff (err : GoErr) :
    (isTooManyFDError err = true ↔
      ∃ op path, err = GoErr.pathError op path (GoErr.errno EMFILE)) ∧
    isTooManyFDError GoErr.nil = false ∧
    isTooManyFDError ErrNotFound = false ∧
    (∀ msg, isTooManyFDError (GoErr.other msg) = false) ∧
    (∀ op path code, code ≠ EMFILE →
      isTooManyFDError (GoErr.pathError op path (GoErr.errno code)) = false) ∧
    isTooManyFDError (GoErr.errno EMFILE) = false ∧
    (∀ d : Datastore, (retryDatastore d).TempErrFunc = isTooManyFDError) ∧
    (isTooManyFDError err = false →
      ∀ (d : Datastore) (op : Nat → GoErr), op 0 = err →
        (retryDatastore d).runOp op = { err := err, attempts := 1, waited := 0 }) := by
  refine ⟨?_, rfl, rfl, fun _ => rfl, ?_, rfl, fun _ => rfl, ?_⟩
  · constructor
    · intro h
      cases err with
      | pathError op path inner =>
        refine ⟨op, path, ?_⟩
        by_cases hi : inner = GoErr.errno EMFILE
        · rw [hi]
        · simp [isTooManyFDError, hi] at h
      | nil => simp [isTooManyFDError] at h
      | errno c => simp [isTooManyFDError] at h
      | other m => simp [isTooManyFDError] at h
    · rintro ⟨op, path, rfl⟩
      simp [isTooManyFDError]
  · intro op path code hc
    simp [isTooManyFDError, hc]
  · intro h d op h0
    have hs := retryLoop_stop (retryDatastore d) op 5 0 (Or.inr (by rw [h0]; exact h))
    simp only [RetryDatastore.runOp]
    have hr : (retryDatastore d).Retries = 5 + 1 := rfl
    rw [hr, hs, h0]
    simp

theorem isTooManyFDError_iff_witness :
    isTooManyFDError ErrNotFound = false ∧
    (retryDatastore Datastore.map).runOp (fun _ => ErrNotFound)
      = { err := ErrNotFound, attempts := 1, waited := 0 } :=
  ⟨by decide, (isTooManyFDError_iff ErrNotFound).2.2.2.2.2.2.2 (by decide) Datastore.map _ rfl⟩

/-- C5: under the policy of `setupNode` (6 retries, 200ms, `isTooManyFDError`), an
operation whose underlying store fails with the transient error exactly `N < 6` times
and then succeeds, succeeds after `N + 1` attempts and `200 * N` ms of waiting; an
operation whose first 6 attempts all fail with the transient error fails with
`IOExhausted` after exactly 6 attempts. -/
theorem retry_policy_budget (d : Datastore) (op : Nat → GoErr) :
    (retryDatastore d).Retries = 6 ∧ (retryDatastore d).Delay = 200 ∧
    (∀ N, N < 6 → (∀ k, k < N → isTooManyFDError (op k) = true) → op N = GoErr.nil →
      (retryDatastore d).runOp op = { err := GoErr.nil, attempts := N + 1, waited := 200 * N }) ∧
    ((∀ k, k < 6 → isTooManyFDError (op k) = true) →
      (retryDatastore d).runOp op = { err := errIOExhausted, attempts := 6, waited := 1000 }) := by
  refine ⟨rfl, rfl, ?_, ?_⟩
  · intro N hN hfail hok
    have hskip := retryLoop_skip (retryDatastore d) op N (6 - N) 0 (by
      intro j hj
      have := hfail j hj
      simp only [Nat.zero_add]
      exact ⟨this, isTooManyFDError_ne_nil this⟩)
    have e1 : N + (6 - N) = 6 := by omega
    obtain ⟨b, hb⟩ : ∃ b, 6 - N = b + 1 := ⟨5 - N, by omega⟩
    simp only [RetryDatastore.runOp]
    have hr : (retryDatastore d).Retries = 6 := rfl
    rw [hr, ← e1, hskip, hb, Nat.zero_add,
      retryLoop_stop (retryDatastore d) op b N (Or.inl hok), hok]
    simp [retryDatastore, Nat.mul_comm]
  · intro hfail
    have hskip := retryLoop_skip (retryDatastore d) op 6 0 0 (by
      intro j hj
      have := hfail j hj
      simp only [Nat.zero_add]
      exact ⟨this, isTooManyFDError_ne_nil this⟩)
    simp only [RetryDatastore.runOp]
    have hr : (retryDatastore d).Retries = 6 + 0 := rfl
    rw [hr, hskip]
    simp [RetryDatastore.retryLoop, retryDatastore]

theorem retry_policy_budget_witness :
    (retryDatastore Datastore.map).runOp (failsThenSucceeds 3)
        = { err := GoErr.nil, attempts := 4, waited := 600 } ∧
    (retryDatastore Datastore.map).runOp (failsThenSucceeds 6)
        = { err := errIOExhausted, attempts := 6, waited := 1000 } :=
  ⟨(retry_policy_budget Datastore.map (failsThenSucceeds 3)).2.2.1 3 (by decide)
      (by intro k hk; simp [failsThenSucceeds, hk, isTooManyFDError]) (by decide),
   (retry_policy_budget Datastore.map (failsThenSucceeds 6)).2.2.2
      (by intro k hk; simp [failsThenSucceeds, hk, isTooManyFDError])⟩

/-! ## The config resolver -/

theorem defaultRepo_isSome (env : Env) (d : Datastore)
    (h : (defaultRepo env d).2.1 = GoErr.nil) : (defaultRepo env d).1 ≠ none := by
  unfold defaultRepo at h ⊢
  simp only at h ⊢
  split_ifs at h ⊢ <;> simp_all

theorem defaultRepo_trace (env : Env) (d : Datastore) :
    Event.loadID ∉ (defaultRepo env d).2.2 := by
  unfold defaultRepo
  simp only
  split_ifs <;> simp

theorem fillDefaults_trace (env : Env) (cfg : BuildCfg) :
    Event.loadID ∉ (cfg.fillDefaults env).trace := by
  have := defaultRepo_trace env (Datastore.mutexWrap (if cfg.NilRepo then Datastore.null else Datastore.map))
  unfold BuildCfg.fillDefaults
  simp only
  split_ifs <;> simp_all

theorem fillRoutingHost_fields (cfg : BuildCfg) :
    (fillRoutingHost cfg).Repo = cfg.Repo ∧ (fillRoutingHost cfg).NilRepo = cfg.NilRepo ∧
    (fillRoutingHost cfg).Online = cfg.Online ∧
    (fillRoutingHost cfg).Routing ≠ none ∧ (fillRoutingHost cfg).Host ≠ none := by
  unfold fillRoutingHost
  simp only
  split_ifs <;> simp_all

theorem fillRoutingHost_fixed (cfg : BuildCfg) (h1 : cfg.Routing ≠ none)
    (h2 : cfg.Host ≠ none) : fillRoutingHost cfg = cfg := by
  simp [fillRoutingHost, h1, h2]

theorem fillDefaults_of_repo (env : Env) (c : BuildCfg) (h1 : c.Repo ≠ none)
    (h2 : c.NilRepo = false) :
    c.fillDefaults env = { cfg := fillRoutingHost c, err := GoErr.nil, trace := [] } := by
  unfold BuildCfg.fillDefaults
  simp [h1, h2]

theorem fillDefaults_of_conflict (env : Env) (c : BuildCfg) (h1 : c.Repo ≠ none)
    (h2 : c.NilRepo = true) :
    c.fillDefaults env = { cfg := c, err := errRepoAndNilRepo, trace := [] } := by
  unfold BuildCfg.fillDefaults
  simp [h1, h2]

/-- The fields of the configuration left by a successful `fillDefaults`. -/
theorem fillDefaults_ok_fields (env : Env) (cfg : BuildCfg)
    (h : (cfg.fillDefaults env).err = GoErr.nil) :
    (cfg.fillDefaults env).cfg.Repo ≠ none ∧
    (cfg.fillDefaults env).cfg.NilRepo = cfg.NilRepo ∧
    (cfg.fillDefaults env).cfg.Routing ≠ none ∧
    (cfg.fillDefaults env).cfg.Host ≠ none := by
  by_cases h1 : cfg.Repo ≠ none ∧ cfg.NilRepo = true
  · simp [BuildCfg.fillDefaults, h1, errRepoAndNilRepo] at h
  · by_cases h2 : cfg.Repo = none
    · by_cases h3 : (defaultRepo env (Datastore.mutexWrap
          (if cfg.NilRepo then Datastore.null else Datastore.map))).2.1 = GoErr.nil
      · have hd := defaultRepo_isSome env _ h3
        have hf := fillRoutingHost_fields
          { cfg with Repo := (defaultRepo env (Datastore.mutexWrap
              (if cfg.NilRepo then Datastore.null else Datastore.map))).1 }
        have e : (cfg.fillDefaults env).cfg = fillRoutingHost
            { cfg with Repo := (defaultRepo env (Datastore.mutexWrap
              (if cfg.NilRepo then Datastore.null else Datastore.map))).1 } := by
          simp [BuildCfg.fillDefaults, h2, h3]
        rw [e]
        exact ⟨by rw [hf.1]; exact hd, hf.2.1, hf.2.2.2.1, hf.2.2.2.2⟩
      · simp [BuildCfg.fillDefaults, h2, h3] at h
    · have hf := fillRoutingHost_fields cfg
      have h4 : cfg.NilRepo = false := by
        cases hb : cfg.NilRepo with
        | false => rfl
        | true => exact absurd ⟨h2, hb⟩ h1
      have e : (cfg.fillDefaults env).cfg = fillRoutingHost cfg := by
        rw [fillDefaults_of_repo env cfg h2 h4]
      rw [e]
      exact ⟨by rw [hf.1]; exact h2, hf.2.1, hf.2.2.2.1, hf.2.2.2.2⟩

/-- C1, counterexample: with no repo and no nil-repo flag, `fillDefaults` still fails
when key generation fails, so failure is not equivalent to the conflict. -/
theorem fillDefaults_fails_without_conflict :
    ¬ ((BuildCfg.fillDefaults envKeygenFails {}).err ≠ GoErr.nil ↔
        (({} : BuildCfg).Repo ≠ none ∧ ({} : BuildCfg).NilRepo = true)) := by
  decide

/-- C1, amended: `fillDefaults` fails with the conflict error whenever an explicit
`Repo` is set and `NilRepo` is true, and then it has made no call at all (no datastore
or repo was constructed) and left the configuration as it was; its only other failure
is the failure of `defaultRepo` when no `Repo` is given, whose error it returns.
Whenever `fillDefaults` fails, `NewNode` returns that error with no node, having made
no call beyond those of `fillDefaults`: `setupNode` is not run. -/
theorem fillDefaults_conflict (env : Env) (cfg : BuildCfg) :
    ((cfg.Repo ≠ none ∧ cfg.NilRepo = true) →
      (cfg.fillDefaults env).err = errRepoAndNilRepo ∧ (cfg.fillDefaults env).trace = [] ∧
      (cfg.fillDefaults env).cfg = cfg ∧ (NewNode env (some cfg)).trace = []) ∧
    ((cfg.fillDefaults env).err ≠ GoErr.nil ↔
      ((cfg.Repo ≠ none ∧ cfg.NilRepo = true) ∨
       (cfg.Repo = none ∧
        (defaultRepo env (Datastore.mutexWrap
          (if cfg.NilRepo then Datastore.null else Datastore.map))).2.1 ≠ GoErr.nil))) ∧
    ((cfg.fillDefaults env).err ≠ GoErr.nil →
      (NewNode env (some cfg)).node.isNone = true ∧
      (NewNode env (some cfg)).err = (cfg.fillDefaults env).err ∧
      (NewNode env (some cfg)).trace = (cfg.fillDefaults env).trace ∧
      Event.loadID ∉ (NewNode env (some cfg)).trace) ∧
    (cfg.Repo = none →
      (defaultRepo env (Datastore.mutexWrap
        (if cfg.NilRepo then Datastore.null else Datastore.map))).2.1 ≠ GoErr.nil →
      (cfg.fillDefaults env).err =
        (defaultRepo env (Datastore.mutexWrap
          (if cfg.NilRepo then Datastore.null else Datastore.map))).2.1) := by
  have hnn : (cfg.fillDefaults env).err ≠ GoErr.nil →
      (NewNode env (some cfg)).node.isNone = true ∧
      (NewNode env (some cfg)).err = (cfg.fillDefaults env).err ∧
      (NewNode env (some cfg)).trace = (cfg.fillDefaults env).trace := by
    intro h
    simp [NewNode, h]
  refine ⟨?_, ?_, ?_, ?_⟩
  rotate_left 3
  · intro h2 h3
    unfold BuildCfg.fillDefaults
    simp only
    split_ifs with h1 <;> simp_all
  · intro h
    have herr : (cfg.fillDefaults env).err = errRepoAndNilRepo := by
      simp [BuildCfg.fillDefaults, h]
    have htr : (cfg.fillDefaults env).trace = [] := by
      simp [BuildCfg.fillDefaults, h]
    refine ⟨herr, htr, ?_, ?_⟩
    · simp [BuildCfg.fillDefaults, h]
    · have hne : (cfg.fillDefaults env).err ≠ GoErr.nil := by
        rw [herr]; decide
      rw [(hnn hne).2.2, htr]
  · unfold BuildCfg.fillDefaults
    simp only
    split_ifs with h1 h2 h3 <;> simp_all [errRepoAndNilRepo]
  · intro h
    obtain ⟨a, b, c⟩ := hnn h
    refine ⟨a, b, c, ?_⟩
    rw [c]
    exact fillDefaults_trace env cfg

theorem fillDefaults_conflict_witness :
    ((BuildCfg.fillDefaults envOk
        { Repo := some { D := Datastore.external 0, C := {} }, NilRepo := true }).err
      = errRepoAndNilRepo ∧
    (NewNode envOk
        (some { Repo := some { D := Datastore.external 0, C := {} }, NilRepo := true })).trace
      = []) ∧
    ((NewNode envKeygenFails (some {})).node.isNone = true ∧
     (NewNode envKeygenFails (some {})).err = GoErr.other "rand: read failed" ∧
     Event.loadID ∉ (NewNode envKeygenFails (some {})).trace) :=
  have h := (fillDefaults_conflict envOk
    { Repo := some { D := Datastore.external 0, C := {} }, NilRepo := true }).1
    (by decide)
  have k := (fillDefaults_conflict envKeygenFails {}).2.2.1 (by decide)
  ⟨⟨h.1, h.2.2.2⟩, k.1, k.2.1.trans (by decide), k.2.2.2⟩

/-- C8, counterexample: from a configuration with `NilRepo` set and no repo,
`fillDefaults` succeeds and leaves a configuration with both a repo and `NilRepo`;
resolving that configuration again, or building a second node from it, fails with the
conflict error. -/
theorem fillDefaults_nilRepo_breaks_invariant :
    (BuildCfg.fillDefaults envOk { NilRepo := true }).err = GoErr.nil ∧
    ¬ ¬ ((BuildCfg.fillDefaults envOk { NilRepo := true }).cfg.Repo ≠ none ∧
         (BuildCfg.fillDefaults envOk { NilRepo := true }).cfg.NilRepo = true) ∧
    (BuildCfg.fillDefaults envOk (BuildCfg.fillDefaults envOk { NilRepo := true }).cfg).err
      = errRepoAndNilRepo ∧
    (NewNode envOk (some (NewNode envOk (some { NilRepo := true })).cfg)).err
      = errRepoAndNilRepo := by
  decide

/-- C8, amended: when `fillDefaults` succeeds, the resulting configuration has a repo
and the `NilRepo` flag of the input; it has both a repo and `NilRepo = true` exactly
when the input had `NilRepo = true`.  For an input with `NilRepo = false` the result
satisfies the invariant and resolving it again succeeds and changes nothing; for an
input with `NilRepo = true` resolving the result again fails with the conflict. -/
theorem fillDefaults_result_invariant (env env2 : Env) (cfg : BuildCfg)
    (h : (cfg.fillDefaults env).err = GoErr.nil) :
    (cfg.fillDefaults env).cfg.Repo ≠ none ∧
    (cfg.fillDefaults env).cfg.NilRepo = cfg.NilRepo ∧
    (((cfg.fillDefaults env).cfg.Repo ≠ none ∧ (cfg.fillDefaults env).cfg.NilRepo = true) ↔
      cfg.NilRepo = true) ∧
    (cfg.NilRepo = false →
      ¬ ((cfg.fillDefaults env).cfg.Repo ≠ none ∧ (cfg.fillDefaults env).cfg.NilRepo = true) ∧
      ((cfg.fillDefaults env).cfg.fillDefaults env2).err = GoErr.nil ∧
      ((cfg.fillDefaults env).cfg.fillDefaults env2).cfg = (cfg.fillDefaults env).cfg) ∧
    (cfg.NilRepo = true →
      ((cfg.fillDefaults env).cfg.fillDefaults env2).err = errRepoAndNilRepo) := by
  obtain ⟨hsome, hflag, hrouting, hhost⟩ := fillDefaults_ok_fields env cfg h
  refine ⟨hsome, hflag, ?_, ?_, ?_⟩
  · rw [hflag]
    exact ⟨fun hh => hh.2, fun hh => ⟨hsome, hh⟩⟩
  · intro hf
    have hn : (cfg.fillDefaults env).cfg.NilRepo = false := by rw [hflag, hf]
    have hfix := fillRoutingHost_fixed (cfg.fillDefaults env).cfg hrouting hhost
    refine ⟨?_, ?_, ?_⟩
    · rw [hn]; simp
    · rw [fillDefaults_of_repo env2 _ hsome hn]
    · rw [fillDefaults_of_repo env2 _ hsome hn]
      exact hfix
  · intro ht
    have hn : (cfg.fillDefaults env).cfg.NilRepo = true := by rw [hflag, ht]
    rw [fillDefaults_of_conflict env2 _ hsome hn]

theorem fillDefaults_result_invariant_witness :
    ((BuildCfg.fillDefaults envOk {}).cfg.Repo ≠ none ∧
     ¬ ((BuildCfg.fillDefaults envOk {}).cfg.Repo ≠ none ∧
        (BuildCfg.fillDefaults envOk {}).cfg.NilRepo = true) ∧
     (BuildCfg.fillDefaults envKeygenFails (BuildCfg.fillDefaults envOk {}).cfg).err
       = GoErr.nil) ∧
    (BuildCfg.fillDefaults envOk
        (BuildCfg.fillDefaults envOk { NilRepo := true }).cfg).err = errRepoAndNilRepo :=
  have h := fillDefaults_result_invariant envOk envKeygenFails {} (by decide)
  have k := fillDefaults_result_invariant envOk envOk { NilRepo := true } (by decide)
  ⟨⟨h.1, (h.2.2.2.1 (by decide)).1, (h.2.2.2.1 (by decide)).2.1⟩, k.2.2.2.2 (by decide)⟩

/-! ## Construction never returns a half-built node -/

theorem setupServices_no_close (env : Env) (n : IpfsNode) (cfg : BuildCfg)
    (sh : Option Bool) (t : List Event) (h : Event.close ∉ t) :
    Event.close ∉ (setupServices env n cfg sh t).trace := by
  unfold setupServices
  simp only
  split_ifs <;> simp_all

theorem setupExchange_no_close (env : Env) (n : IpfsNode) (cfg : BuildCfg)
    (sh : Option Bool) (t : List Event) (h : Event.close ∉ t) :
    Event.close ∉ (setupExchange env n cfg sh t).trace := by
  unfold setupExchange
  simp only
  split_ifs <;> first
    | (apply setupServices_no_close; simp_all)
    | simp_all

theorem setupBlockstore_no_close (env : Env) (n : IpfsNode) (cfg : BuildCfg)
    (bs : Blockstore) (opts : CacheOpts) (conf : Config) (t : List Event)
    (h : Event.close ∉ t) :
    Event.close ∉ (setupBlockstore env n cfg bs opts conf t).trace := by
  unfold setupBlockstore
  simp only
  split_ifs <;> first
    | (apply setupExchange_no_close; simp_all)
    | simp_all

theorem setupNode_no_close (env : Env) (n : IpfsNode) (cfg : BuildCfg) :
    Event.close ∉ (setupNode env n cfg).trace := by
  unfold setupNode
  simp only
  split_ifs <;> first
    | (apply setupBlockstore_no_close; simp)
    | simp

theorem defaultRepo_no_close (env : Env) (d : Datastore) :
    Event.close ∉ (defaultRepo env d).2.2 := by
  unfold defaultRepo
  simp only
  split_ifs <;> simp

theorem fillDefaults_no_close (env : Env) (cfg : BuildCfg) :
    Event.close ∉ (cfg.fillDefaults env).trace := by
  have := defaultRepo_no_close env
    (Datastore.mutexWrap (if cfg.NilRepo then Datastore.null else Datastore.map))
  unfold BuildCfg.fillDefaults
  simp only
  split_ifs <;> simp_all

/-- The configuration `NewNode` works on: the given one, or a fresh `BuildCfg` when the
pointer is nil. -/
theorem NewNode_unfold (env : Env) (cfg : Option BuildCfg) (repo : Repo)
    (h1 : ((cfg.getD {}).fillDefaults env).err = GoErr.nil)
    (h2 : ((cfg.getD {}).fillDefaults env).cfg.Repo = some repo) :
    NewNode env cfg =
      if (setupNode env (initNode ((cfg.getD {}).fillDefaults env).cfg repo)
            ((cfg.getD {}).fillDefaults env).cfg).err ≠ GoErr.nil then
        { node := none
          err := (setupNode env (initNode ((cfg.getD {}).fillDefaults env).cfg repo)
            ((cfg.getD {}).fillDefaults env).cfg).err
          cfg := ((cfg.getD {}).fillDefaults env).cfg
          trace := ((cfg.getD {}).fillDefaults env).trace ++ [Event.newPeerstore] ++
            (setupNode env (initNode ((cfg.getD {}).fillDefaults env).cfg repo)
              ((cfg.getD {}).fillDefaults env).cfg).trace ++ [Event.close] }
      else
        { node := some (setupNode env (initNode ((cfg.getD {}).fillDefaults env).cfg repo)
            ((cfg.getD {}).fillDefaults env).cfg).n
          err := GoErr.nil
          cfg := ((cfg.getD {}).fillDefaults env).cfg
          trace := ((cfg.getD {}).fillDefaults env).trace ++ [Event.newPeerstore] ++
            (setupNode env (initNode ((cfg.getD {}).fillDefaults env).cfg repo)
              ((cfg.getD {}).fillDefaults env).cfg).trace } := by
  cases cfg with
  | none =>
    simp only [Option.getD_none] at h1 h2 ⊢
    simp only [NewNode, h1, h2]
    simp
  | some c =>
    simp only [Option.getD_some] at h1 h2 ⊢
    simp only [NewNode, h1, h2]
    simp

theorem NewNode_fill_failed (env : Env) (cfg : Option BuildCfg)
    (h1 : ((cfg.getD {}).fillDefaults env).err ≠ GoErr.nil) :
    NewNode env cfg =
      { node := none, err := ((cfg.getD {}).fillDefaults env).err,
        cfg := ((cfg.getD {}).fillDefaults env).cfg,
        trace := ((cfg.getD {}).fillDefaults env).trace } := by
  cases cfg with
  | none =>
    simp only [Option.getD_none] at h1 ⊢
    simp [NewNode, h1]
  | some c =>
    simp only [Option.getD_some] at h1 ⊢
    simp [NewNode, h1]

/-! ## The storage stack -/

theorem setupServices_stores (env : Env) (n : IpfsNode) (cfg : BuildCfg)
    (sh : Option Bool) (t : List Event) :
    (setupServices env n cfg sh t).n.BaseBlocks = n.BaseBlocks ∧
    (setupServices env n cfg sh t).n.Blockstore = n.Blockstore ∧
    (setupServices env n cfg sh t).n.Exchange = n.Exchange ∧
    (setupServices env n cfg sh t).n.mode = n.mode := by
  unfold setupServices
  simp only
  split_ifs <;> simp

theorem setupExchange_stores (env : Env) (n : IpfsNode) (cfg : BuildCfg)
    (sh : Option Bool) (t : List Event) :
    (setupExchange env n cfg sh t).n.BaseBlocks = n.BaseBlocks ∧
    (setupExchange env n cfg sh t).n.Blockstore = n.Blockstore ∧
    (setupExchange env n cfg sh t).n.mode = n.mode := by
  unfold setupExchange
  simp only
  split_ifs <;> simp [setupServices_stores]

/-- What the blockstore stage assigns when `CachedBlockstore` does not fail. -/
theorem setupBlockstore_stores (env : Env) (n : IpfsNode) (cfg : BuildCfg)
    (bs : Blockstore) (opts : CacheOpts) (conf : Config) (t : List Event)
    (h : cfg.NilRepo = true ∨ env.cachedBlockstore = GoErr.nil) :
    (setupBlockstore env n cfg bs opts conf t).n.BaseBlocks =
      some (Blockstore.cidv0v1 (Blockstore.newIdStore
        (if cfg.NilRepo then bs else Blockstore.cachedBlockstore bs
          { opts with HasBloomFilterSize :=
              if cfg.Permanent then conf.DatastoreBloomFilterSize else 0 }))) ∧
    (setupBlockstore env n cfg bs opts conf t).n.Blockstore =
      some (nodeChain (Blockstore.cidv0v1 (Blockstore.newIdStore
        (if cfg.NilRepo then bs else Blockstore.cachedBlockstore bs
          { opts with HasBloomFilterSize :=
              if cfg.Permanent then conf.DatastoreBloomFilterSize else 0 })))
        (conf.ExperimentalFilestoreEnabled || conf.ExperimentalUrlstoreEnabled)
        { repo := n.Repo }) := by
  have hc : ¬ (cfg.NilRepo = false ∧ env.cachedBlockstore ≠ GoErr.nil) := by
    rintro ⟨h1, h2⟩
    rcases h with h | h
    · rw [h1] at h; cases h
    · exact h2 h
  unfold setupBlockstore
  simp only [hc, if_false]
  cases hN : cfg.NilRepo <;> cases hP : cfg.Permanent <;>
    cases hF : (conf.ExperimentalFilestoreEnabled || conf.ExperimentalUrlstoreEnabled) <;>
    simp [setupExchange_stores, nodeChain]

/-- The base blockstore and the node blockstore that `setupNode` assigns when the steps
before them succeed. -/
theorem setupNode_stores (env : Env) (n : IpfsNode) (cfg : BuildCfg)
    (h : reachesBlockstore env cfg) :
    (setupNode env n cfg).n.BaseBlocks =
      some (baseChain n.Repo.D cfg.NilRepo (cacheOptsOf env cfg)) ∧
    (setupNode env n cfg).n.Blockstore =
      some (nodeChain (baseChain n.Repo.D cfg.NilRepo (cacheOptsOf env cfg))
        ((env.repoConfig 0).1.ExperimentalFilestoreEnabled ||
          (env.repoConfig 0).1.ExperimentalUrlstoreEnabled)
        { repo := n.Repo }) := by
  obtain ⟨h1, h2, h3⟩ := h
  have hs := setupBlockstore_stores env n cfg
    (Blockstore.verifBS (Blockstore.newBlockstore (retryDatastore n.Repo.D)))
    env.DefaultCacheOpts (env.repoConfig 0).1
    ([Event.loadID] ++ [Event.repoDatastore] ++ [Event.repoConfig]) h3
  unfold setupNode
  simp only [h1, h2, ne_eq, not_true_eq_false, if_false]
  simp only [baseChain, cacheOptsOf]
  exact hs

theorem setupBlockstore_cache_failed (env : Env) (n : IpfsNode) (cfg : BuildCfg)
    (bs : Blockstore) (opts : CacheOpts) (conf : Config) (t : List Event)
    (h : cfg.NilRepo = false ∧ env.cachedBlockstore ≠ GoErr.nil) :
    (setupBlockstore env n cfg bs opts conf t).n = n ∧
    (setupBlockstore env n cfg bs opts conf t).err = env.cachedBlockstore := by
  unfold setupBlockstore
  simp only []
  rw [if_pos h]
  exact ⟨rfl, rfl⟩

theorem setupNode_not_reached (env : Env) (n : IpfsNode) (cfg : BuildCfg)
    (h : ¬ reachesBlockstore env cfg) :
    (setupNode env n cfg).n.BaseBlocks = n.BaseBlocks ∧
    (setupNode env n cfg).n.Blockstore = n.Blockstore ∧
    (setupNode env n cfg).err ≠ GoErr.nil := by
  unfold reachesBlockstore at h
  unfold setupNode
  simp only
  split_ifs with h1 h2
  · exact ⟨rfl, rfl, h1⟩
  · exact ⟨rfl, rfl, h2⟩
  · have h3 : cfg.NilRepo = false ∧ env.cachedBlockstore ≠ GoErr.nil := by
      simp only [ne_eq, not_not] at h1 h2
      cases hN : cfg.NilRepo
      · refine ⟨rfl, fun hc => h ⟨h1, h2, Or.inr hc⟩⟩
      · exact absurd ⟨h1, h2, Or.inl hN⟩ h
    have hb := setupBlockstore_cache_failed env n cfg
      (Blockstore.verifBS (Blockstore.newBlockstore (retryDatastore n.Repo.D)))
      env.DefaultCacheOpts (env.repoConfig 0).1
      ([Event.loadID] ++ [Event.repoDatastore] ++ [Event.repoConfig]) h3
    exact ⟨by rw [hb.1], by rw [hb.1], by rw [hb.2]; exact h3.2⟩

/-- C10, counterexample: for a non-permanent node over a repo whose config asks for a
bloom filter of size 1024, the cache layer of the base blockstore is built with bloom
filter size 0, not with the size of the repo config. -/
theorem baseBlocks_bloom_not_from_config :
    (envOk.repoConfig 0).1.DatastoreBloomFilterSize = 1024 ∧
    ¬ (((NewNode envOk (some cfgExt)).node.bind IpfsNode.BaseBlocks).bind
          Blockstore.bloomFilterSize
        = some (envOk.repoConfig 0).1.DatastoreBloomFilterSize) := by
  decide

/-- C10, amended: when the steps before it succeed, the base blockstore that
`setupNode` assigns is the fixed chain, innermost first: retry-wrapped raw datastore,
integrity verification, read-through cache, identity-block short-circuit, codec
normalization.  The cache layer is present exactly when `NilRepo` is false; its bloom
filter size is `Datastore.BloomFilterSize` of the repo config when `Permanent` is set
and 0 otherwise.  No layer occurs twice.  When an earlier step fails, `setupNode`
fails and assigns no base blockstore. -/
theorem setupNode_baseBlocks (env : Env) (n : IpfsNode) (cfg : BuildCfg) :
    (reachesBlockstore env cfg →
      (setupNode env n cfg).n.BaseBlocks =
        some (baseChain n.Repo.D cfg.NilRepo (cacheOptsOf env cfg)) ∧
      (baseChain n.Repo.D cfg.NilRepo (cacheOptsOf env cfg)).layers =
        [Layer.retryDatastore, Layer.verification] ++
          (if cfg.NilRepo then [] else [Layer.cache]) ++
          [Layer.idShortcut, Layer.codecNormalization] ∧
      (baseChain n.Repo.D cfg.NilRepo (cacheOptsOf env cfg)).layers.Nodup ∧
      (Layer.cache ∈ (baseChain n.Repo.D cfg.NilRepo (cacheOptsOf env cfg)).layers ↔
        cfg.NilRepo = false) ∧
      (baseChain n.Repo.D cfg.NilRepo (cacheOptsOf env cfg)).bloomFilterSize =
        (if cfg.NilRepo then none
         else some (if cfg.Permanent then (env.repoConfig 0).1.DatastoreBloomFilterSize
                    else 0))) ∧
    (¬ reachesBlockstore env cfg →
      (setupNode env n cfg).n.BaseBlocks = n.BaseBlocks ∧
      (setupNode env n cfg).err ≠ GoErr.nil) := by
  refine ⟨fun h => ⟨(setupNode_stores env n cfg h).1, ?_, ?_, ?_, ?_⟩, fun h => ?_⟩
  · cases hN : cfg.NilRepo <;> simp [baseChain, Blockstore.layers]
  · cases hN : cfg.NilRepo <;> simp [baseChain, Blockstore.layers]
  · cases hN : cfg.NilRepo <;> simp [baseChain, Blockstore.layers]
  · cases hN : cfg.NilRepo <;> cases hP : cfg.Permanent <;>
      simp [baseChain, Blockstore.bloomFilterSize, cacheOptsOf, hP]
  · exact ⟨(setupNode_not_reached env n cfg h).1, (setupNode_not_reached env n cfg h).2.2⟩

theorem setupNode_baseBlocks_witness :
    ((setupNode envOk (initNode { cfgExt with Permanent := true } repoExt)
        { cfgExt with Permanent := true }).n.BaseBlocks.map Blockstore.layers
      = some [Layer.retryDatastore, Layer.verification, Layer.cache, Layer.idShortcut,
              Layer.codecNormalization]) ∧
    ((setupNode envOk (initNode { cfgExt with Permanent := true } repoExt)
        { cfgExt with Permanent := true }).n.BaseBlocks.bind Blockstore.bloomFilterSize
      = some 1024) :=
  have h := (setupNode_baseBlocks envOk (initNode { cfgExt with Permanent := true } repoExt)
    { cfgExt with Permanent := true }).1 ⟨rfl, rfl, Or.inr rfl⟩
  ⟨by rw [h.1]; rfl, by rw [h.1]; rfl⟩

/-- C4, counterexample: with the filestore enabled in the repo config, the outermost
layer of the node blockstore is not the GC guard. -/
theorem blockstore_outermost_not_gcGuard :
    ¬ (((NewNode envFilestore (some cfgExt)).node.bind IpfsNode.Blockstore).map
          Blockstore.outermost
        = some Layer.gcGuard) := by
  decide

/-- C4, amended: when the steps before it succeed, the node blockstore that `setupNode`
assigns is, without filestore and urlstore, the GC guard directly over the base
blockstore (the GC guard is outermost); with `Experimental.FilestoreEnabled` or
`Experimental.UrlstoreEnabled`, it is the GC-aware integrity wrapper over the GC guard
over the file overlay over the base blockstore: the file overlay sits directly beneath
the GC guard, and the integrity wrapper is the only layer outside the GC guard. -/
theorem setupNode_blockstore (env : Env) (n : IpfsNode) (cfg : BuildCfg)
    (h : reachesBlockstore env cfg) :
    (setupNode env n cfg).n.Blockstore =
      some (nodeChain (baseChain n.Repo.D cfg.NilRepo (cacheOptsOf env cfg))
        ((env.repoConfig 0).1.ExperimentalFilestoreEnabled ||
          (env.repoConfig 0).1.ExperimentalUrlstoreEnabled)
        { repo := n.Repo }) ∧
    (∀ base fm, (nodeChain base false fm).layers = base.layers ++ [Layer.gcGuard] ∧
      (nodeChain base false fm).outermost = Layer.gcGuard) ∧
    (∀ base fm,
      (nodeChain base true fm).layers =
        base.layers ++ [Layer.fileOverlay, Layer.gcGuard, Layer.verificationGC] ∧
      (nodeChain base true fm).outermost = Layer.verificationGC) :=
  ⟨(setupNode_stores env n cfg h).2,
    fun _ _ => ⟨by simp [nodeChain, Blockstore.layers], rfl⟩,
    fun _ _ => ⟨by simp [nodeChain, Blockstore.layers], rfl⟩⟩

theorem setupNode_blockstore_witness :
    ((setupNode envFilestore (initNode cfgExt repoExt) cfgExt).n.Blockstore.map
        Blockstore.layers
      = some [Layer.retryDatastore, Layer.verification, Layer.cache, Layer.idShortcut,
              Layer.codecNormalization, Layer.fileOverlay, Layer.gcGuard,
              Layer.verificationGC]) ∧
    ((setupNode envOk (initNode cfgExt repoExt) cfgExt).n.Blockstore.map
        Blockstore.outermost
      = some Layer.gcGuard) :=
  ⟨by rw [(setupNode_blockstore envFilestore (initNode cfgExt repoExt) cfgExt
            ⟨rfl, rfl, Or.inr rfl⟩).1]; rfl,
   by rw [(setupNode_blockstore envOk (initNode cfgExt repoExt) cfgExt
            ⟨rfl, rfl, Or.inr rfl⟩).1]; rfl⟩

/-! ## Loading the pinner -/

theorem setupServices_pinner_error (env : Env) (n : IpfsNode) (cfg : BuildCfg)
    (sh : Option Bool) (t : List Event) (e : GoErr) (he : e ≠ GoErr.nil) :
    setupServices { env with loadPinner := e } n cfg sh t =
      setupServices { env with loadPinner := ErrNotFound } n cfg sh t := by
  have h0 : ErrNotFound ≠ GoErr.nil := by decide
  unfold setupServices
  simp only [he, h0, ne_eq, not_false_eq_true, if_true]

theorem setupExchange_pinner_error (env : Env) (n : IpfsNode) (cfg : BuildCfg)
    (sh : Option Bool) (t : List Event) (e : GoErr) (he : e ≠ GoErr.nil) :
    setupExchange { env with loadPinner := e } n cfg sh t =
      setupExchange { env with loadPinner := ErrNotFound } n cfg sh t := by
  unfold setupExchange
  simp only [setupServices_pinner_error env _ cfg sh _ e he]

theorem setupBlockstore_pinner_error (env : Env) (n : IpfsNode) (cfg : BuildCfg)
    (bs : Blockstore) (opts : CacheOpts) (conf : Config) (t : List Event) (e : GoErr)
    (he : e ≠ GoErr.nil) :
    setupBlockstore { env with loadPinner := e } n cfg bs opts conf t =
      setupBlockstore { env with loadPinner := ErrNotFound } n cfg bs opts conf t := by
  unfold setupBlockstore
  simp only [setupExchange_pinner_error env _ cfg _ _ e he]

theorem setupNode_pinner_error (env : Env) (n : IpfsNode) (cfg : BuildCfg) (e : GoErr)
    (he : e ≠ GoErr.nil) :
    setupNode { env with loadPinner := e } n cfg =
      setupNode { env with loadPinner := ErrNotFound } n cfg := by
  unfold setupNode
  simp only [setupBlockstore_pinner_error env _ cfg _ _ _ _ e he]

/-- What the last stage does when loading the pinner fails. -/
theorem setupServices_new_pinner (env : Env) (n : IpfsNode) (cfg : BuildCfg)
    (sh : Option Bool) (t : List Event) (he : env.loadPinner ≠ GoErr.nil) :
    (setupServices env n cfg sh t).n.Pinning.map Pinner.pins = some [] ∧
    Event.newPinner ∈ (setupServices env n cfg sh t).trace ∧
    (setupServices env n cfg sh t).err =
      (if cfg.Online = true ∧ env.startLateOnlineServices ≠ GoErr.nil then
        env.startLateOnlineServices
       else env.loadFilesRoot) := by
  unfold setupServices
  simp only [he, ne_eq, not_false_eq_true, if_true]
  split_ifs <;> simp

theorem setupExchange_new_pinner (env : Env) (n : IpfsNode) (cfg : BuildCfg)
    (sh : Option Bool) (t : List Event) (h1 : (env.repoConfig 1).2 = GoErr.nil)
    (h2 : cfg.Online = true → env.startOnlineServices = GoErr.nil)
    (he : env.loadPinner ≠ GoErr.nil) :
    (setupExchange env n cfg sh t).n.Pinning.map Pinner.pins = some [] ∧
    Event.newPinner ∈ (setupExchange env n cfg sh t).trace ∧
    (setupExchange env n cfg sh t).err =
      (if cfg.Online = true ∧ env.startLateOnlineServices ≠ GoErr.nil then
        env.startLateOnlineServices
       else env.loadFilesRoot) := by
  unfold setupExchange
  simp only [h1, ne_eq, not_true_eq_false, if_false]
  by_cases hO : cfg.Online = true
  · rw [if_pos hO]
    simp only [h2 hO, not_true_eq_false, if_false]
    exact setupServices_new_pinner env _ cfg sh _ he
  · rw [if_neg hO]
    exact setupServices_new_pinner env _ cfg sh _ he

theorem setupBlockstore_new_pinner (env : Env) (n : IpfsNode) (cfg : BuildCfg)
    (bs : Blockstore) (opts : CacheOpts) (conf : Config) (t : List Event)
    (h0 : cfg.NilRepo = true ∨ env.cachedBlockstore = GoErr.nil)
    (h1 : (env.repoConfig 1).2 = GoErr.nil)
    (h2 : cfg.Online = true → env.startOnlineServices = GoErr.nil)
    (he : env.loadPinner ≠ GoErr.nil) :
    (setupBlockstore env n cfg bs opts conf t).n.Pinning.map Pinner.pins = some [] ∧
    Event.newPinner ∈ (setupBlockstore env n cfg bs opts conf t).trace ∧
    (setupBlockstore env n cfg bs opts conf t).err =
      (if cfg.Online = true ∧ env.startLateOnlineServices ≠ GoErr.nil then
        env.startLateOnlineServices
       else env.loadFilesRoot) := by
  have hc : ¬ (cfg.NilRepo = false ∧ env.cachedBlockstore ≠ GoErr.nil) := by
    rintro ⟨a, b⟩
    rcases h0 with h | h
    · rw [a] at h; cases h
    · exact b h
  unfold setupBlockstore
  simp only []
  rw [if_neg hc]
  by_cases hF : (conf.ExperimentalFilestoreEnabled || conf.ExperimentalUrlstoreEnabled) = true
  · rw [if_pos hF]
    exact setupExchange_new_pinner env _ cfg _ _ h1 h2 he
  · rw [if_neg hF]
    exact setupExchange_new_pinner env _ cfg _ _ h1 h2 he

/-- C3, counterexample: when loading the pinner fails with an error that is not
"not found", construction still succeeds: a node is returned and the load error is
not. -/
theorem loadPinner_error_not_fatal :
    envPinnerCorrupt.loadPinner ≠ GoErr.nil ∧
    envPinnerCorrupt.loadPinner ≠ ErrNotFound ∧
    ¬ ((setupNode envPinnerCorrupt (initNode cfgExt repoExt) cfgExt).err
        = envPinnerCorrupt.loadPinner) ∧
    ¬ ((NewNode envPinnerCorrupt (some cfgExt)).node.isNone = true) := by
  decide

/-- C3, amended: when loading the persisted pinner fails, with "not found" or with any
other error, a brand-new empty pinner is created and the bootstrap continues: the
result of `setupNode` is the same for every load error as for "not found", and when the
load is reached and fails, the node gets an empty pinner, `NewPinner` is called, and
the error `setupNode` returns is the one of the steps after it (the late online
services when online, else the files root), never the load error itself. -/
theorem setupNode_loadPinner_failure (env : Env) (n : IpfsNode) (cfg : BuildCfg) :
    (∀ e, e ≠ GoErr.nil →
      setupNode { env with loadPinner := e } n cfg =
        setupNode { env with loadPinner := ErrNotFound } n cfg) ∧
    (reachesPinner env cfg → env.loadPinner ≠ GoErr.nil →
      (setupNode env n cfg).n.Pinning.map Pinner.pins = some [] ∧
      Event.newPinner ∈ (setupNode env n cfg).trace ∧
      (setupNode env n cfg).err =
        (if cfg.Online = true ∧ env.startLateOnlineServices ≠ GoErr.nil then
          env.startLateOnlineServices
         else env.loadFilesRoot)) := by
  refine ⟨fun e he => setupNode_pinner_error env n cfg e he, ?_⟩
  rintro ⟨⟨⟨h1, h2, h3⟩, h4⟩, h5⟩ he
  unfold setupNode
  simp only [h1, h2, ne_eq, not_true_eq_false, if_false]
  exact setupBlockstore_new_pinner env n cfg _ _ _ _ h3 h4 h5 he

theorem setupNode_loadPinner_failure_witness :
    (setupNode envPinnerCorrupt (initNode cfgExt repoExt) cfgExt
      = setupNode { envPinnerCorrupt with loadPinner := ErrNotFound }
          (initNode cfgExt repoExt) cfgExt) ∧
    ((setupNode envPinnerCorrupt (initNode cfgExt repoExt) cfgExt).n.Pinning.map Pinner.pins
      = some []) ∧
    (setupNode envPinnerCorrupt (initNode cfgExt repoExt) cfgExt).err = GoErr.nil :=
  have h := setupNode_loadPinner_failure envPinnerCorrupt (initNode cfgExt repoExt) cfgExt
  have h2 := h.2 ⟨⟨⟨rfl, rfl, Or.inr rfl⟩, rfl⟩, by decide⟩ (by decide)
  ⟨h.1 (GoErr.other "pin: cannot decode pin set") (by decide), h2.1, h2.2.2.trans (by decide)⟩

/-! ## Exchange selection -/

theorem setupServices_online_calls (env : Env) (n : IpfsNode) (cfg : BuildCfg)
    (sh : Option Bool) (t : List Event) :
    (setupServices env n cfg sh t).trace.filter Event.isStartOnlineServices =
      t.filter Event.isStartOnlineServices ∧
    (cfg.Online = false → Event.startLateOnlineServices ∈ (setupServices env n cfg sh t).trace →
      Event.startLateOnlineServices ∈ t) := by
  unfold setupServices
  simp only
  split_ifs <;> simp_all [List.filter_append, Event.isStartOnlineServices]

theorem setupExchange_online_calls (env : Env) (n : IpfsNode) (cfg : BuildCfg)
    (sh : Option Bool) (t : List Event) :
    (cfg.Online = false →
      (setupExchange env n cfg sh t).trace.filter Event.isStartOnlineServices =
        t.filter Event.isStartOnlineServices ∧
      (Event.startLateOnlineServices ∈ (setupExchange env n cfg sh t).trace →
        Event.startLateOnlineServices ∈ t)) ∧
    (cfg.Online = true → (env.repoConfig 1).2 = GoErr.nil →
      (setupExchange env n cfg sh t).trace.filter Event.isStartOnlineServices =
        t.filter Event.isStartOnlineServices ++ [startOnlineCall cfg]) ∧
    ((setupExchange env n cfg sh t).trace.filter Event.isStartOnlineServices).length ≤
      (t.filter Event.isStartOnlineServices).length + 1 ∧
    (cfg.Online = false → (env.repoConfig 1).2 = GoErr.nil →
      (setupExchange env n cfg sh t).n.Exchange =
        (setupExchange env n cfg sh t).n.Blockstore.map Exchange.offline) := by
  refine ⟨?_, ?_, ?_, ?_⟩
  · intro hO
    unfold setupExchange
    simp only [hO, Bool.false_eq_true, if_false]
    split_ifs <;> first
      | (refine ⟨?_, fun hm => ?_⟩
         · rw [(setupServices_online_calls env _ cfg sh _).1]
           simp [List.filter_append, Event.isStartOnlineServices]
         · have := (setupServices_online_calls env _ cfg sh _).2 hO hm
           simpa using this)
      | simp [List.filter_append, Event.isStartOnlineServices]
  · intro hO h1
    unfold setupExchange
    simp only [hO, h1, ne_eq, not_true_eq_false, if_true, if_false]
    split_ifs <;> first
      | (rw [(setupServices_online_calls env _ cfg sh _).1]
         simp [List.filter_append, Event.isStartOnlineServices, startOnlineCall, hostOptionOf, *])
      | simp [List.filter_append, Event.isStartOnlineServices, startOnlineCall, hostOptionOf, *]
  · unfold setupExchange
    simp only
    split_ifs <;> first
      | (rw [(setupServices_online_calls env _ cfg sh _).1]
         simp [List.filter_append, Event.isStartOnlineServices])
      | simp [List.filter_append, Event.isStartOnlineServices]
  · intro hO h1
    unfold setupExchange
    simp only [hO, h1, ne_eq, not_true_eq_false, Bool.false_eq_true, if_false]
    rw [(setupServices_stores env _ cfg sh _).2.1, (setupServices_stores env _ cfg sh _).2.2.1]

theorem setupBlockstore_tail (env : Env) (n : IpfsNode) (cfg : BuildCfg)
    (bs : Blockstore) (opts : CacheOpts) (conf : Config) (t : List Event)
    (h0 : cfg.NilRepo = true ∨ env.cachedBlockstore = GoErr.nil) :
    ∃ n1 sh t1, setupBlockstore env n cfg bs opts conf t = setupExchange env n1 cfg sh t1 ∧
      t1.filter Event.isStartOnlineServices = t.filter Event.isStartOnlineServices ∧
      (Event.startLateOnlineServices ∈ t1 → Event.startLateOnlineServices ∈ t) := by
  have hc : ¬ (cfg.NilRepo = false ∧ env.cachedBlockstore ≠ GoErr.nil) := by
    rintro ⟨a, b⟩
    rcases h0 with h | h
    · rw [a] at h; cases h
    · exact b h
  unfold setupBlockstore
  simp only []
  rw [if_neg hc]
  by_cases hF : (conf.ExperimentalFilestoreEnabled || conf.ExperimentalUrlstoreEnabled) = true
  · rw [if_pos hF]
    refine ⟨_, _, _, rfl, ?_, ?_⟩
    · split_ifs <;> simp [List.filter_append, Event.isStartOnlineServices]
    · split_ifs <;> simp
  · rw [if_neg hF]
    refine ⟨_, _, _, rfl, ?_, ?_⟩
    · split_ifs <;> simp [List.filter_append, Event.isStartOnlineServices]
    · split_ifs <;> simp

theorem setupNode_tail (env : Env) (n : IpfsNode) (cfg : BuildCfg)
    (h : reachesBlockstore env cfg) :
    ∃ n1 sh t1, setupNode env n cfg = setupExchange env n1 cfg sh t1 ∧
      t1.filter Event.isStartOnlineServices = [] ∧
      Event.startLateOnlineServices ∉ t1 := by
  obtain ⟨h1, h2, h3⟩ := h
  obtain ⟨n1, sh, t1, e, f1, f2⟩ := setupBlockstore_tail env n cfg
    (Blockstore.verifBS (Blockstore.newBlockstore (retryDatastore n.Repo.D)))
    env.DefaultCacheOpts (env.repoConfig 0).1
    ([Event.loadID] ++ [Event.repoDatastore] ++ [Event.repoConfig]) h3
  refine ⟨n1, sh, t1, ?_, ?_, ?_⟩
  · unfold setupNode
    simp only [h1, h2, ne_eq, not_true_eq_false, if_false]
    exact e
  · rw [f1]
    simp [Event.isStartOnlineServices]
  · intro hm
    have := f2 hm
    simp at this

theorem setupNode_not_reached_calls (env : Env) (n : IpfsNode) (cfg : BuildCfg)
    (h : ¬ reachesBlockstore env cfg) :
    (setupNode env n cfg).trace.filter Event.isStartOnlineServices = [] ∧
    Event.startLateOnlineServices ∉ (setupNode env n cfg).trace := by
  unfold reachesBlockstore at h
  unfold setupNode
  simp only
  split_ifs with h1 h2
  · simp [Event.isStartOnlineServices]
  · simp [Event.isStartOnlineServices]
  · have h3 : cfg.NilRepo = false ∧ env.cachedBlockstore ≠ GoErr.nil := by
      simp only [ne_eq, not_not] at h1 h2
      cases hN : cfg.NilRepo
      · refine ⟨rfl, fun hc => h ⟨h1, h2, Or.inr hc⟩⟩
      · exact absurd ⟨h1, h2, Or.inl hN⟩ h
    unfold setupBlockstore
    simp only []
    rw [if_pos h3]
    simp [h3.1, Event.isStartOnlineServices]

theorem setupBlockstore_mode (env : Env) (n : IpfsNode) (cfg : BuildCfg)
    (bs : Blockstore) (opts : CacheOpts) (conf : Config) (t : List Event) :
    (setupBlockstore env n cfg bs opts conf t).n.mode = n.mode := by
  unfold setupBlockstore
  simp only
  split_ifs <;> simp [setupExchange_stores]

theorem setupNode_mode (env : Env) (n : IpfsNode) (cfg : BuildCfg) :
    (setupNode env n cfg).n.mode = n.mode := by
  unfold setupNode
  simp only
  split_ifs <;> simp [setupBlockstore_mode]

/-- C7: what `setupNode` does about the exchange depends on `cfg.Online` alone.  With
`Online` false no call of `startOnlineServices` or `startLateOnlineServices` is ever
made, the mode is offline, and, when the steps before the selection succeed, the
exchange is the offline exchange over the node blockstore.  With `Online` true the
mode is online and, when the steps before the selection succeed, `startOnlineServices`
is called exactly once, with the `pubsub`, `ipnsps` and `mplex` flags given by
`getOpt`; in no case is it called more than once.  `getOpt key` is true exactly when
`ExtraOpts` is non-nil and maps `key` to true. -/
theorem setupNode_exchange_selection (env : Env) (n : IpfsNode) (cfg : BuildCfg) :
    (cfg.Online = false →
      (setupNode env n cfg).trace.filter Event.isStartOnlineServices = [] ∧
      Event.startLateOnlineServices ∉ (setupNode env n cfg).trace ∧
      (∀ repo, (setupNode env (initNode cfg repo) cfg).n.mode = Mode.offlineMode) ∧
      (reachesExchange env cfg →
        ∃ b, (setupNode env n cfg).n.Blockstore = some b ∧
          (setupNode env n cfg).n.Exchange = some (Exchange.offline b))) ∧
    (cfg.Online = true →
      (∀ repo, (setupNode env (initNode cfg repo) cfg).n.mode = Mode.onlineMode) ∧
      (reachesExchange env cfg →
        (setupNode env n cfg).trace.filter Event.isStartOnlineServices =
          [Event.startOnlineServices cfg.Routing (hostOptionOf cfg)
            (cfg.getOpt "pubsub") (cfg.getOpt "ipnsps") (cfg.getOpt "mplex")])) ∧
    ((setupNode env n cfg).trace.filter Event.isStartOnlineServices).length ≤ 1 ∧
    (∀ key, cfg.getOpt key = true ↔
      ∃ m, cfg.ExtraOpts = some m ∧ m.lookup key = some true) := by
  refine ⟨?_, ?_, ?_, ?_⟩
  · intro hO
    refine ⟨?_, ?_, ?_, ?_⟩
    · by_cases hr : reachesBlockstore env cfg
      · obtain ⟨n1, sh, t1, e, f1, -⟩ := setupNode_tail env n cfg hr
        rw [e, ((setupExchange_online_calls env n1 cfg sh t1).1 hO).1, f1]
      · exact (setupNode_not_reached_calls env n cfg hr).1
    · by_cases hr : reachesBlockstore env cfg
      · obtain ⟨n1, sh, t1, e, -, f2⟩ := setupNode_tail env n cfg hr
        rw [e]
        exact fun hm => f2 (((setupExchange_online_calls env n1 cfg sh t1).1 hO).2 hm)
      · exact (setupNode_not_reached_calls env n cfg hr).2
    · intro repo
      rw [setupNode_mode]
      simp [initNode, hO]
    · rintro ⟨hr, h1⟩
      obtain ⟨n1, sh, t1, e, -, -⟩ := setupNode_tail env n cfg hr
      have hb := (setupNode_stores env n cfg hr).2
      refine ⟨_, hb, ?_⟩
      have hx := (setupExchange_online_calls env n1 cfg sh t1).2.2.2 hO h1
      rw [← e, hb] at hx
      exact hx
  · intro hO
    refine ⟨?_, ?_⟩
    · intro repo
      rw [setupNode_mode]
      simp [initNode, hO]
    · rintro ⟨hr, h1⟩
      obtain ⟨n1, sh, t1, e, f1, -⟩ := setupNode_tail env n cfg hr
      rw [e, (setupExchange_online_calls env n1 cfg sh t1).2.1 hO h1, f1]
      rfl
  · by_cases hr : reachesBlockstore env cfg
    · obtain ⟨n1, sh, t1, e, f1, -⟩ := setupNode_tail env n cfg hr
      have := (setupExchange_online_calls env n1 cfg sh t1).2.2.1
      rw [f1] at this
      rw [e]
      simpa using this
    · rw [(setupNode_not_reached_calls env n cfg hr).1]
      simp
  · intro key
    unfold BuildCfg.getOpt
    cases hE : cfg.ExtraOpts with
    | none => simp
    | some m =>
      simp only [Option.some.injEq, exists_eq_left']
      unfold mapIndex
      cases hl : m.lookup key with
      | none => simp
      | some b => simp

theorem setupNode_exchange_selection_witness :
    ((setupNode envOk (initNode cfgOnline repoExt) cfgOnline).trace.filter
        Event.isStartOnlineServices
      = [Event.startOnlineServices (some RoutingOption.DHTOption)
          (some HostOption.DefaultHostOption) true false false]) ∧
    (setupNode envOk (initNode cfgOnline repoExt) cfgOnline).n.mode = Mode.onlineMode ∧
    ((setupNode envOk (initNode cfgExt repoExt) cfgExt).trace.filter
        Event.isStartOnlineServices = []) ∧
    (∃ b, (setupNode envOk (initNode cfgExt repoExt) cfgExt).n.Blockstore = some b ∧
      (setupNode envOk (initNode cfgExt repoExt) cfgExt).n.Exchange
        = some (Exchange.offline b)) :=
  have h1 := (setupNode_exchange_selection envOk (initNode cfgOnline repoExt) cfgOnline).2.1
    (by decide)
  have h2 := (setupNode_exchange_selection envOk (initNode cfgExt repoExt) cfgExt).1
    (by decide)
  ⟨(h1.2 ⟨⟨rfl, rfl, Or.inr rfl⟩, rfl⟩).trans (by decide), h1.1 repoExt, h2.1,
    h2.2.2.2 ⟨⟨rfl, rfl, Or.inr rfl⟩, rfl⟩⟩

end Core

namespace Cosmosutil

/-! ## `GenesisAdd` -/

theorem mapGet_isDecoded (m : List (String × Value)) (key : String)
    (h : allFieldsDecoded m = true) : (mapGet m key).isDecoded = true := by
  induction m with
  | nil => simp [mapGet, Value.isDecoded]
  | cons kv rest ih =>
    obtain ⟨k, v⟩ := kv
    simp only [allFieldsDecoded, Bool.and_eq_true] at h
    by_cases hk : key = k
    · subst hk
      simp [mapGet, List.lookup, h.1]
    · have hne : (key == k) = false := by simpa using hk
      have e : mapGet ((k, v) :: rest) key = mapGet rest key := by
        simp [mapGet, List.lookup, hne]
      rw [e]
      exact ih h.2

/-- On every readable genesis file that `json.Unmarshal` decodes into the map,
`GenesisAdd` panics at one of its type assertions, whatever the adds are: the value
under `app_state.accounts` never has the dynamic type `[]account`. -/
theorem GenesisAdd_panics (env : Env) (path : String) (adds : List String)
    (h1 : (env.readFile path).2 = Error.nil)
    (h2 : (env.unmarshal (env.readFile path).1).2 = Error.nil)
    (h3 : allFieldsDecoded (env.unmarshal (env.readFile path).1).1 = true) :
    ∃ msg, GenesisAdd env path adds = Outcome.panic msg := by
  unfold GenesisAdd
  simp only [h1, h2, ne_eq, not_true_eq_false, if_false]
  have ha := mapGet_isDecoded _ "app_state" h3
  cases hv : mapGet (env.unmarshal (env.readFile path).1).1 "app_state" with
  | map appState =>
    rw [hv] at ha
    simp only [Value.isDecoded] at ha
    have hb := mapGet_isDecoded appState "accounts" ha
    dsimp only
    cases hw : mapGet appState "accounts" with
    | accounts l =>
      rw [hw] at hb
      simp [Value.isDecoded] at hb
    | nil => exact ⟨_, rfl⟩
    | bool b => exact ⟨_, rfl⟩
    | float64 x => exact ⟨_, rfl⟩
    | string x => exact ⟨_, rfl⟩
    | slice xs => exact ⟨_, rfl⟩
    | map fs => exact ⟨_, rfl⟩
    | validators l => exact ⟨_, rfl⟩
  | nil => exact ⟨_, rfl⟩
  | bool b => exact ⟨_, rfl⟩
  | float64 x => exact ⟨_, rfl⟩
  | string x => exact ⟨_, rfl⟩
  | slice xs => exact ⟨_, rfl⟩
  | accounts l => exact ⟨_, rfl⟩
  | validators l => exact ⟨_, rfl⟩

/-- The loop of `GenesisAdd` answers an entry without `:` and an entry with a key other
than `validator` and `account` with the formatting error. -/
theorem addLoop_formatError (env : Env) (accounts : List account)
    (validators : List GenesisValidator) :
    addLoop env ["validator"] accounts validators = Except.error formatError ∧
    addLoop env ["delegator:abc"] accounts validators = Except.error formatError := by
  constructor <;> rfl

/-- C9: on a readable genesis file holding a JSON object with an empty
`app_state.accounts` array and an empty `validators` array, and two well-formed adds,
`GenesisAdd` does not return: it panics at the type assertion
`appState["accounts"].([]account)`, and writes nothing. -/
theorem GenesisAdd_panics_on_genesis :
    GenesisAdd envGenesis "genesis.json"
        ["account:cosmos1qypqxpq9qcrsszg2pvxq6rs0zqg3yyc5lzv7xu,10mycoin",
         "validator:cosmosvalconspub1zcjduepq0vu2zgkgk49efa0nqwzndanq5m4c7pa3u4apz4g2r9gspqg6g9cs3k9cuf"]
      = Outcome.panic "interface conversion: interface \x7b\x7d is not []cosmosutil.account" := by
  rfl

end Cosmosutil

namespace Core

/-! ## Which step failures end construction -/

theorem setupServices_err (env : Env) (n : IpfsNode) (cfg : BuildCfg)
    (sh : Option Bool) (t : List Event) :
    (setupServices env n cfg sh t).err =
      firstError ((if cfg.Online then [env.startLateOnlineServices] else []) ++
        [env.loadFilesRoot]) := by
  unfold setupServices
  simp only
  cases hO : cfg.Online <;>
    by_cases h1 : env.startLateOnlineServices = GoErr.nil <;>
    by_cases h2 : env.loadFilesRoot = GoErr.nil <;>
    simp [firstError, h1, h2]

theorem setupExchange_err (env : Env) (n : IpfsNode) (cfg : BuildCfg)
    (sh : Option Bool) (t : List Event) :
    (setupExchange env n cfg sh t).err =
      firstError ([(env.repoConfig 1).2] ++
        (if cfg.Online then [env.startOnlineServices] else []) ++
        (if cfg.Online then [env.startLateOnlineServices] else []) ++
        [env.loadFilesRoot]) := by
  unfold setupExchange
  simp only
  by_cases h1 : (env.repoConfig 1).2 = GoErr.nil
  · simp only [h1, ne_eq, not_true_eq_false, if_false]
    by_cases hO : cfg.Online = true
    · rw [if_pos hO]
      by_cases h2 : env.startOnlineServices = GoErr.nil
      · simp only [h2, not_true_eq_false, if_false]
        rw [setupServices_err]
        simp [firstError, hO]
      · simp [firstError, hO, h2]
    · rw [if_neg hO]
      rw [setupServices_err]
      simp [firstError, hO]
  · simp [firstError, h1]

theorem setupBlockstore_err (env : Env) (n : IpfsNode) (cfg : BuildCfg)
    (bs : Blockstore) (opts : CacheOpts) (conf : Config) (t : List Event) :
    (setupBlockstore env n cfg bs opts conf t).err =
      firstError ((if cfg.NilRepo then [] else [env.cachedBlockstore]) ++
        [(env.repoConfig 1).2] ++
        (if cfg.Online then [env.startOnlineServices] else []) ++
        (if cfg.Online then [env.startLateOnlineServices] else []) ++
        [env.loadFilesRoot]) := by
  unfold setupBlockstore
  simp only []
  by_cases hc : cfg.NilRepo = false ∧ env.cachedBlockstore ≠ GoErr.nil
  · rw [if_pos hc]
    simp [firstError, hc.1, hc.2]
  · rw [if_neg hc]
    have hrest : firstError ((if cfg.NilRepo then [] else [env.cachedBlockstore]) ++
        [(env.repoConfig 1).2] ++
        (if cfg.Online then [env.startOnlineServices] else []) ++
        (if cfg.Online then [env.startLateOnlineServices] else []) ++
        [env.loadFilesRoot]) =
      firstError ([(env.repoConfig 1).2] ++
        (if cfg.Online then [env.startOnlineServices] else []) ++
        (if cfg.Online then [env.startLateOnlineServices] else []) ++
        [env.loadFilesRoot]) := by
      cases hN : cfg.NilRepo
      · have hcb : env.cachedBlockstore = GoErr.nil := by
          by_contra hne
          exact hc ⟨hN, hne⟩
        simp [firstError, hcb]
      · simp
    rw [hrest]
    by_cases hF :
        (conf.ExperimentalFilestoreEnabled || conf.ExperimentalUrlstoreEnabled) = true
    · rw [if_pos hF]
      exact setupExchange_err env _ cfg _ _
    · rw [if_neg hF]
      exact setupExchange_err env _ cfg _ _

/-- The error `setupNode` returns is the error of the first failing step among
`stepErrors`. -/
theorem setupNode_err (env : Env) (n : IpfsNode) (cfg : BuildCfg) :
    (setupNode env n cfg).err = firstError (stepErrors env cfg) := by
  unfold setupNode stepErrors
  simp only
  by_cases h1 : env.loadID = GoErr.nil
  · by_cases h2 : (env.repoConfig 0).2 = GoErr.nil
    · simp only [h1, h2, ne_eq, not_true_eq_false, if_false]
      rw [setupBlockstore_err]
      simp [firstError]
    · simp [firstError, h1, h2]
  · simp [firstError, h1]

theorem firstError_eq_nil (l : List GoErr) :
    firstError l = GoErr.nil ↔ ∀ e, e ∈ l → e = GoErr.nil := by
  induction l with
  | nil => simp [firstError]
  | cons a rest ih =>
    by_cases ha : a = GoErr.nil
    · simp [firstError, ha, ih]
    · simp [firstError, ha]

theorem firstError_mem (l : List GoErr) (h : firstError l ≠ GoErr.nil) :
    firstError l ∈ l := by
  induction l with
  | nil => simp [firstError] at h
  | cons a rest ih =>
    by_cases ha : a = GoErr.nil
    · have e : firstError (a :: rest) = firstError rest := by simp [firstError, ha]
      rw [e] at h ⊢
      exact List.mem_cons_of_mem a (ih h)
    · have e : firstError (a :: rest) = a := by simp [firstError, ha]
      rw [e]
      exact List.mem_cons_self a rest

theorem setupServices_complete (env : Env) (n : IpfsNode) (cfg : BuildCfg)
    (sh : Option Bool) (t : List Event) (hb : n.BaseBlocks.isSome = true)
    (hg : n.GCLocker.isSome = true) (hs : n.Blockstore.isSome = true)
    (hx : n.Exchange.isSome = true) :
    (setupServices env n cfg sh t).n.complete = true := by
  unfold setupServices IpfsNode.complete
  simp only
  split_ifs <;> simp [hb, hg, hs, hx]

theorem setupExchange_complete (env : Env) (n : IpfsNode) (cfg : BuildCfg)
    (sh : Option Bool) (t : List Event) (h1 : (env.repoConfig 1).2 = GoErr.nil)
    (h2 : cfg.Online = true → env.startOnlineServices = GoErr.nil)
    (hb : n.BaseBlocks.isSome = true) (hg : n.GCLocker.isSome = true)
    (hs : n.Blockstore.isSome = true) :
    (setupExchange env n cfg sh t).n.complete = true := by
  unfold setupExchange
  simp only [h1, ne_eq, not_true_eq_false, if_false]
  by_cases hO : cfg.Online = true
  · rw [if_pos hO]
    simp only [h2 hO, not_true_eq_false, if_false]
    apply setupServices_complete <;> split_ifs <;> simp [hb, hg, hs]
  · rw [if_neg hO]
    apply setupServices_complete <;> split_ifs <;> simp [hb, hg, hs]

theorem setupBlockstore_complete (env : Env) (n : IpfsNode) (cfg : BuildCfg)
    (bs : Blockstore) (opts : CacheOpts) (conf : Config) (t : List Event)
    (h0 : cfg.NilRepo = true ∨ env.cachedBlockstore = GoErr.nil)
    (h1 : (env.repoConfig 1).2 = GoErr.nil)
    (h2 : cfg.Online = true → env.startOnlineServices = GoErr.nil) :
    (setupBlockstore env n cfg bs opts conf t).n.complete = true := by
  have hc : ¬ (cfg.NilRepo = false ∧ env.cachedBlockstore ≠ GoErr.nil) := by
    rintro ⟨a, b⟩
    rcases h0 with h | h
    · rw [a] at h; cases h
    · exact b h
  unfold setupBlockstore
  simp only []
  rw [if_neg hc]
  by_cases hF : (conf.ExperimentalFilestoreEnabled || conf.ExperimentalUrlstoreEnabled) = true
  · rw [if_pos hF]
    apply setupExchange_complete env _ cfg _ _ h1 h2 <;> simp
  · rw [if_neg hF]
    apply setupExchange_complete env _ cfg _ _ h1 h2 <;> simp

/-- When `setupNode` returns no error, every layer and service of the node is
assigned. -/
theorem setupNode_complete (env : Env) (n : IpfsNode) (cfg : BuildCfg)
    (h : (setupNode env n cfg).err = GoErr.nil) :
    (setupNode env n cfg).n.complete = true := by
  rw [setupNode_err, firstError_eq_nil] at h
  have h1 : env.loadID = GoErr.nil := h _ (by simp [stepErrors])
  have h2 : (env.repoConfig 0).2 = GoErr.nil := h _ (by simp [stepErrors])
  have h3 : cfg.NilRepo = true ∨ env.cachedBlockstore = GoErr.nil := by
    cases hN : cfg.NilRepo
    · exact Or.inr (h _ (by simp [stepErrors, hN]))
    · exact Or.inl rfl
  have h4 : (env.repoConfig 1).2 = GoErr.nil := h _ (by simp [stepErrors])
  have h5 : cfg.Online = true → env.startOnlineServices = GoErr.nil := by
    intro hO
    exact h _ (by simp [stepErrors, hO])
  unfold setupNode
  simp only [h1, h2, ne_eq, not_true_eq_false, if_false]
  exact setupBlockstore_complete env n cfg _ _ _ _ h3 h4 h5

/-- C2, counterexample: the step `pin.LoadPinner` of `setupNode` runs and fails, and
yet `NewNode` does not tear the node down and return that error: it returns a node and
a nil error, and `Close` is not called. -/
theorem NewNode_loadPinner_failure_returns_node :
    Event.loadPinner ∈ (NewNode envPinnerCorrupt (some cfgExt)).trace ∧
    envPinnerCorrupt.loadPinner ≠ GoErr.nil ∧
    ¬ ((NewNode envPinnerCorrupt (some cfgExt)).node.isNone = true ∧
       (NewNode envPinnerCorrupt (some cfgExt)).err = envPinnerCorrupt.loadPinner) ∧
    (NewNode envPinnerCorrupt (some cfgExt)).node.isSome = true ∧
    (NewNode envPinnerCorrupt (some cfgExt)).err = GoErr.nil ∧
    Event.close ∉ (NewNode envPinnerCorrupt (some cfgExt)).trace := by
  decide

/-- C2, amended: `NewNode` never returns a half-built node: it returns a node exactly
when it returns a nil error, and a returned node has every layer and service assigned.
After a successful `fillDefaults`, the error of `setupNode` is the error of the first
failing step among `loadID`, the two `Repo.Config()` calls, `CachedBlockstore` (unless
`NilRepo`), `startOnlineServices` and `startLateOnlineServices` (when online) and
`loadFilesRoot`; a failure of `pin.LoadPinner` is not among them.  When one of these
steps fails, `NewNode` calls `Close` on the node as its last call and returns no node
and that step's error, unchanged; when none fails, it returns the node that `setupNode`
built and a nil error, and `Close` is not called. -/
theorem NewNode_no_partial_node (env : Env) (cfg : Option BuildCfg) :
    ((NewNode env cfg).node.isSome = true ↔ (NewNode env cfg).err = GoErr.nil) ∧
    (∀ nd, (NewNode env cfg).node = some nd → nd.complete = true) ∧
    (∀ repo, ((cfg.getD {}).fillDefaults env).err = GoErr.nil →
      ((cfg.getD {}).fillDefaults env).cfg.Repo = some repo →
      (firstError (stepErrors env ((cfg.getD {}).fillDefaults env).cfg) ≠ GoErr.nil →
        firstError (stepErrors env ((cfg.getD {}).fillDefaults env).cfg) ∈
          stepErrors env ((cfg.getD {}).fillDefaults env).cfg ∧
        (NewNode env cfg).node.isNone = true ∧
        (NewNode env cfg).err =
          firstError (stepErrors env ((cfg.getD {}).fillDefaults env).cfg) ∧
        (NewNode env cfg).trace =
          ((cfg.getD {}).fillDefaults env).trace ++ [Event.newPeerstore] ++
            (setupNode env (initNode ((cfg.getD {}).fillDefaults env).cfg repo)
              ((cfg.getD {}).fillDefaults env).cfg).trace ++ [Event.close]) ∧
      (firstError (stepErrors env ((cfg.getD {}).fillDefaults env).cfg) = GoErr.nil →
        (NewNode env cfg).node =
          some (setupNode env (initNode ((cfg.getD {}).fillDefaults env).cfg repo)
            ((cfg.getD {}).fillDefaults env).cfg).n ∧
        (NewNode env cfg).err = GoErr.nil ∧
        (NewNode env cfg).trace =
          ((cfg.getD {}).fillDefaults env).trace ++ [Event.newPeerstore] ++
            (setupNode env (initNode ((cfg.getD {}).fillDefaults env).cfg repo)
              ((cfg.getD {}).fillDefaults env).cfg).trace)) ∧
    (∀ c : BuildCfg, firstError (stepErrors env c) = GoErr.nil ↔
      ∀ e, e ∈ stepErrors env c → e = GoErr.nil) ∧
    ((NewNode env cfg).err = GoErr.nil → Event.close ∉ (NewNode env cfg).trace) := by
  by_cases h1 : ((cfg.getD {}).fillDefaults env).err = GoErr.nil
  · obtain ⟨hsome, -⟩ := fillDefaults_ok_fields env (cfg.getD {}) h1
    obtain ⟨repo, hrepo⟩ := Option.ne_none_iff_exists'.mp hsome
    have hu := NewNode_unfold env cfg repo h1 hrepo
    have hc1 := fillDefaults_no_close env (cfg.getD {})
    have hc2 := setupNode_no_close env (initNode ((cfg.getD {}).fillDefaults env).cfg repo)
      ((cfg.getD {}).fillDefaults env).cfg
    have herr := setupNode_err env (initNode ((cfg.getD {}).fillDefaults env).cfg repo)
      ((cfg.getD {}).fillDefaults env).cfg
    refine ⟨?_, ?_, ?_, fun c => firstError_eq_nil _, ?_⟩
    · rw [hu]
      split_ifs with hs
      · simp [hs]
      · simp
    · intro nd hnd
      by_cases hs : (setupNode env (initNode ((cfg.getD {}).fillDefaults env).cfg repo)
          ((cfg.getD {}).fillDefaults env).cfg).err = GoErr.nil
      · have hn : (NewNode env cfg).node =
            some (setupNode env (initNode ((cfg.getD {}).fillDefaults env).cfg repo)
              ((cfg.getD {}).fillDefaults env).cfg).n := by
          rw [hu]
          simp [hs]
        rw [hn] at hnd
        rw [← Option.some.inj hnd]
        exact setupNode_complete env _ _ hs
      · have hn : (NewNode env cfg).node = none := by
          rw [hu]
          simp [hs]
        rw [hn] at hnd
        cases hnd
    · intro repo2 _ hrepo2
      have e : repo2 = repo := by
        rw [hrepo] at hrepo2
        exact (Option.some.inj hrepo2).symm
      subst e
      rw [← herr]
      refine ⟨fun hs => ?_, fun hs => ?_⟩
      · refine ⟨?_, ?_⟩
        · rw [herr] at hs ⊢
          exact firstError_mem _ hs
        · rw [hu]
          simp [hs]
      · rw [hu]
        simp [hs]
    · rw [hu]
      split_ifs with hs
      · intro h; exact absurd h hs
      · intro _
        simp [hc1, hc2]
  · have hu := NewNode_fill_failed env cfg h1
    refine ⟨?_, ?_, ?_, fun c => firstError_eq_nil _, ?_⟩
    · rw [hu]
      simp [h1]
    · intro nd hnd
      rw [hu] at hnd
      simp at hnd
    · intro repo h
      exact absurd h h1
    · rw [hu]
      intro h
      exact absurd h h1

theorem NewNode_no_partial_node_witness :
    ((NewNode envFilesRootFails none).node.isNone = true ∧
     (NewNode envFilesRootFails none).err = GoErr.other "files root: corrupt" ∧
     (NewNode envFilesRootFails none).trace.getLast? = some Event.close) ∧
    ((NewNode envOk none).node.isSome = true ∧
     (NewNode envOk none).err = GoErr.nil ∧
     Event.close ∉ (NewNode envOk none).trace) ∧
    ((NewNode envLateFails (some cfgOnline)).node.isNone = true ∧
     (NewNode envLateFails (some cfgOnline)).err
       = GoErr.other "late services: listen failed") :=
  have h := ((NewNode_no_partial_node envFilesRootFails none).2.2.1
    { D := Datastore.mutexWrap Datastore.map,
      C := { Bootstrap := ["/dnsaddr/bootstrap.libp2p.io"],
             AddressesSwarm := ["/ip4/0.0.0.0/tcp/4001"],
             IdentityPeerID := "QmPeer", IdentityPrivKey := "BAU=" } }
    (by decide) (by decide)).1 (by decide)
  have k := ((NewNode_no_partial_node envOk none).2.2.1
    { D := Datastore.mutexWrap Datastore.map,
      C := { Bootstrap := ["/dnsaddr/bootstrap.libp2p.io"],
             AddressesSwarm := ["/ip4/0.0.0.0/tcp/4001"],
             IdentityPeerID := "QmPeer", IdentityPrivKey := "BAU=" } }
    (by decide) (by decide)).2 (by decide)
  have l := ((NewNode_no_partial_node envLateFails (some cfgOnline)).2.2.1 repoExt
    (by decide) (by decide)).1 (by decide)
  ⟨⟨h.2.1, h.2.2.1.trans (by decide), by decide⟩,
   ⟨by rw [k.1]; rfl, k.2.1,
    (NewNode_no_partial_node envOk none).2.2.2.2 k.2.1⟩,
   ⟨l.2.1, l.2.2.1.trans (by decide)⟩⟩

end Core
